import Mathlib

/-!
Verification of the sasya-arogya-engine workflow core against its
natural-language specification.

The Python source is shallowly embedded: runtime-typed dictionaries become
association lists over a JSON-like value type `Val`, Python truthiness becomes
`Val.truthy`, and the streaming loop of
`src/fsm_agent/core/langgraph_workflow.py::stream_process_message` becomes a
fold over update chunks producing a list of typed events.  External effects
(LLM calls, the insurance MCP tool, the regex context extractor) are passed in
as explicit arguments of the embedded functions.  Numeric values are modelled
as integers: no verified claim performs fractional arithmetic.  Python's
`hash` is modelled as the identity on the hashed string (an injective hash),
which is the intent of the deduplication code.
-/

/-- JSON-like runtime values: the value universe of the Python state
dictionaries (`None`, booleans, numbers, strings, lists, dicts). -/
inductive Val where
  | null : Val
  | bool (b : Bool) : Val
  | int (n : Int) : Val
  | str (s : String) : Val
  | arr (elems : List Val) : Val
  | obj (entries : List (String × Val)) : Val
  deriving Repr

mutual

/-- Structural equality test for `Val` (Python `==` on JSON-like data). -/
def Val.beq : Val → Val → Bool
  | .null, .null => true
  | .bool a, .bool b => a == b
  | .int a, .int b => a == b
  | .str a, .str b => a == b
  | .arr a, .arr b => Val.beqList a b
  | .obj a, .obj b => Val.beqObj a b
  | _, _ => false

/-- Pointwise equality test for lists of values. -/
def Val.beqList : List Val → List Val → Bool
  | [], [] => true
  | a :: as, b :: bs => Val.beq a b && Val.beqList as bs
  | _, _ => false

/-- Pointwise equality test for dict entry lists. -/
def Val.beqObj : List (String × Val) → List (String × Val) → Bool
  | [], [] => true
  | (k1, v1) :: as, (k2, v2) :: bs => k1 == k2 && Val.beq v1 v2 && Val.beqObj as bs
  | _, _ => false

end

mutual

theorem Val.beq_eq : ∀ a b : Val, Val.beq a b = true ↔ a = b
  | .null, .null => by simp [Val.beq]
  | .bool _, .bool _ => by simp [Val.beq]
  | .int _, .int _ => by simp [Val.beq]
  | .str _, .str _ => by simp [Val.beq]
  | .arr a, .arr b => by rw [Val.beq, Val.beqList_eq a b]; simp
  | .obj a, .obj b => by rw [Val.beq, Val.beqObj_eq a b]; simp
  | .null, .bool _ => by simp [Val.beq]
  | .null, .int _ => by simp [Val.beq]
  | .null, .str _ => by simp [Val.beq]
  | .null, .arr _ => by simp [Val.beq]
  | .null, .obj _ => by simp [Val.beq]
  | .bool _, .null => by simp [Val.beq]
  | .bool _, .int _ => by simp [Val.beq]
  | .bool _, .str _ => by simp [Val.beq]
  | .bool _, .arr _ => by simp [Val.beq]
  | .bool _, .obj _ => by simp [Val.beq]
  | .int _, .null => by simp [Val.beq]
  | .int _, .bool _ => by simp [Val.beq]
  | .int _, .str _ => by simp [Val.beq]
  | .int _, .arr _ => by simp [Val.beq]
  | .int _, .obj _ => by simp [Val.beq]
  | .str _, .null => by simp [Val.beq]
  | .str _, .bool _ => by simp [Val.beq]
  | .str _, .int _ => by simp [Val.beq]
  | .str _, .arr _ => by simp [Val.beq]
  | .str _, .obj _ => by simp [Val.beq]
  | .arr _, .null => by simp [Val.beq]
  | .arr _, .bool _ => by simp [Val.beq]
  | .arr _, .int _ => by simp [Val.beq]
  | .arr _, .str _ => by simp [Val.beq]
  | .arr _, .obj _ => by simp [Val.beq]
  | .obj _, .null => by simp [Val.beq]
  | .obj _, .bool _ => by simp [Val.beq]
  | .obj _, .int _ => by simp [Val.beq]
  | .obj _, .str _ => by simp [Val.beq]
  | .obj _, .arr _ => by simp [Val.beq]

theorem Val.beqList_eq : ∀ a b : List Val, Val.beqList a b = true ↔ a = b
  | [], [] => by simp [Val.beqList]
  | _ :: _, [] => by simp [Val.beqList]
  | [], _ :: _ => by simp [Val.beqList]
  | x :: xs, y :: ys => by
      rw [Val.beqList, Bool.and_eq_true, Val.beq_eq x y, Val.beqList_eq xs ys]
      simp

theorem Val.beqObj_eq : ∀ a b : List (String × Val), Val.beqObj a b = true ↔ a = b
  | [], [] => by simp [Val.beqObj]
  | _ :: _, [] => by simp [Val.beqObj]
  | [], _ :: _ => by simp [Val.beqObj]
  | (k1, v1) :: xs, (k2, v2) :: ys => by
      rw [Val.beqObj, Bool.and_eq_true, Bool.and_eq_true,
        Val.beq_eq v1 v2, Val.beqObj_eq xs ys]
      simp [Prod.ext_iff]

end

instance : DecidableEq Val := fun a b => decidable_of_iff _ (Val.beq_eq a b)

/-- Python truthiness of a value (`bool(v)`): `None`, `False`, `0`, `""` and
empty containers are falsy, everything else is truthy. -/
def Val.truthy : Val → Bool
  | .null => false
  | .bool b => b
  | .int n => decide (n ≠ 0)
  | .str s => decide (s ≠ "")
  | .arr l => !l.isEmpty
  | .obj l => !l.isEmpty

/-! ## Association-list maps

Python dictionaries are embedded as association lists with unique keys.
`aget`, `aset`, `adel`, `aupdate` model `d.get(k)` / `d[k] = v` / `del d[k]` /
`d.update(e)`. -/

/-- Lookup of the first binding of a key (`d.get(k)`). -/
def aget {κ α : Type} [DecidableEq κ] : List (κ × α) → κ → Option α
  | [], _ => none
  | (k, v) :: rest, key => if k = key then some v else aget rest key

/-- Key membership (`k in d`). -/
def amem {κ α : Type} [DecidableEq κ] (l : List (κ × α)) (k : κ) : Bool :=
  (aget l k).isSome

/-- Set a key, replacing an existing binding in place or appending a new one;
this mirrors Python dict assignment, which preserves insertion order. -/
def aset {κ α : Type} [DecidableEq κ] : List (κ × α) → κ → α → List (κ × α)
  | [], k, v => [(k, v)]
  | (k', v') :: rest, k, v =>
      if k' = k then (k, v) :: rest else (k', v') :: aset rest k v

/-- Remove every binding of a key (`del d[k]`; a no-op when absent, matching
the guarded `if k in d: del d[k]` idiom of the source). -/
def adel {κ α : Type} [DecidableEq κ] : List (κ × α) → κ → List (κ × α)
  | [], _ => []
  | (k', v') :: rest, k =>
      if k' = k then adel rest k else (k', v') :: adel rest k

/-- Merge a second map into the first, overriding on key clashes
(`d.update(e)`). -/
def aupdate {κ α : Type} [DecidableEq κ] (d : List (κ × α)) : List (κ × α) → List (κ × α)
  | [] => d
  | (k, v) :: rest => aupdate (aset d k v) rest

/-- The key list of a map. -/
def akeys {κ α : Type} (l : List (κ × α)) : List κ := l.map Prod.fst

theorem aget_aset_self {κ α : Type} [DecidableEq κ] (l : List (κ × α)) (k : κ) (v : α) :
    aget (aset l k v) k = some v := by
  induction l with
  | nil => simp [aset, aget]
  | cons hd tl ih =>
      obtain ⟨k', v'⟩ := hd
      by_cases h : k' = k <;> simp [aset, aget, h, ih]

theorem aget_aset_ne {κ α : Type} [DecidableEq κ] (l : List (κ × α)) (k k' : κ) (v : α)
    (h : k' ≠ k) : aget (aset l k v) k' = aget l k' := by
  induction l with
  | nil => simp [aset, aget, Ne.symm h]
  | cons hd tl ih =>
      obtain ⟨k₀, v₀⟩ := hd
      by_cases h₀ : k₀ = k
      · subst h₀
        simp [aset, aget, Ne.symm h]
      · simp only [aset, if_neg h₀, aget]
        by_cases h₁ : k₀ = k' <;> simp [h₁, ih]

theorem aget_adel_self {κ α : Type} [DecidableEq κ] (l : List (κ × α)) (k : κ) :
    aget (adel l k) k = none := by
  induction l with
  | nil => simp [adel, aget]
  | cons hd tl ih =>
      obtain ⟨k', v'⟩ := hd
      by_cases h : k' = k <;> simp [adel, aget, h, ih]

theorem aget_adel_ne {κ α : Type} [DecidableEq κ] (l : List (κ × α)) (k k' : κ)
    (h : k' ≠ k) : aget (adel l k) k' = aget l k' := by
  induction l with
  | nil => simp [adel]
  | cons hd tl ih =>
      obtain ⟨k₀, v₀⟩ := hd
      by_cases h₀ : k₀ = k
      · subst h₀
        simp [adel, aget, Ne.symm h, ih]
      · simp only [adel, if_neg h₀, aget]
        by_cases h₁ : k₀ = k' <;> simp [h₁, ih]

theorem aget_eq_none_of_not_mem_keys {κ α : Type} [DecidableEq κ]
    (l : List (κ × α)) (k : κ) (h : k ∉ akeys l) : aget l k = none := by
  induction l with
  | nil => simp [aget]
  | cons hd tl ih =>
      obtain ⟨k', v'⟩ := hd
      simp only [akeys, List.map_cons, List.mem_cons, not_or] at h
      have h1 : k' ≠ k := fun hc => h.1 hc.symm
      simp only [aget, if_neg h1]
      exact ih (by simpa [akeys] using h.2)

theorem mem_keys_aset {κ α : Type} [DecidableEq κ] (l : List (κ × α)) (k k' : κ) (v : α) :
    k' ∈ akeys (aset l k v) ↔ k' = k ∨ k' ∈ akeys l := by
  induction l with
  | nil => simp [aset, akeys]
  | cons hd tl ih =>
      obtain ⟨k₀, v₀⟩ := hd
      by_cases h₀ : k₀ = k
      · subst h₀
        simp [aset, akeys]
      · simp only [aset, if_neg h₀, akeys, List.map_cons, List.mem_cons]
        simp only [akeys] at ih
        rw [ih]
        tauto

theorem keys_nodup_aset {κ α : Type} [DecidableEq κ] (l : List (κ × α)) (k : κ) (v : α)
    (h : (akeys l).Nodup) : (akeys (aset l k v)).Nodup := by
  induction l with
  | nil => simp [aset, akeys]
  | cons hd tl ih =>
      obtain ⟨k₀, v₀⟩ := hd
      simp only [akeys, List.map_cons, List.nodup_cons] at h
      by_cases h₀ : k₀ = k
      · subst h₀
        simpa [aset, akeys, List.nodup_cons] using h
      · simp only [aset, if_neg h₀, akeys, List.map_cons, List.nodup_cons]
        refine ⟨?_, ih h.2⟩
        intro hc
        rcases (mem_keys_aset tl k k₀ v).mp hc with h₁ | h₁
        · exact h₀ h₁
        · exact h.1 h₁

theorem keys_nodup_aupdate {κ α : Type} [DecidableEq κ] (e d : List (κ × α))
    (h : (akeys d).Nodup) : (akeys (aupdate d e)).Nodup := by
  induction e generalizing d with
  | nil => simpa [aupdate] using h
  | cons hd tl ih =>
      obtain ⟨k, v⟩ := hd
      exact ih _ (keys_nodup_aset d k v h)

theorem aget_eq_some_iff_mem {κ α : Type} [DecidableEq κ] (l : List (κ × α)) (k : κ) (v : α)
    (h : (akeys l).Nodup) : aget l k = some v ↔ (k, v) ∈ l := by
  induction l with
  | nil => simp [aget]
  | cons hd tl ih =>
      obtain ⟨k₀, v₀⟩ := hd
      simp only [akeys, List.map_cons, List.nodup_cons] at h
      by_cases h₀ : k₀ = k
      · subst h₀
        have hnot : (k₀, v) ∉ tl := fun hv => h.1 (List.mem_map_of_mem Prod.fst hv)
        have hv₀ : aget ((k₀, v₀) :: tl) k₀ = some v₀ := by simp [aget]
        rw [hv₀]
        simp only [List.mem_cons, Option.some_inj, Prod.mk.injEq, true_and]
        constructor
        · intro hv
          exact Or.inl hv.symm
        · rintro (hv | hv)
          · exact hv.symm
          · exact absurd hv hnot
      · simp only [aget, if_neg h₀, List.mem_cons, ih (by simpa [akeys] using h.2)]
        constructor
        · intro hm
          exact Or.inr hm
        · rintro (hv | hv)
          · cases hv
            exact absurd rfl h₀
          · exact hv

/-! ## Streaming layer

Embedding of the streaming helpers of
`src/fsm_agent/core/langgraph_workflow.py`: `_calculate_state_delta`
(lines 859-896), `_filter_chunk_for_streaming` (lines 800-857),
`_create_clean_state_copy_from_actual_data` (lines 898-920) and the
per-chunk body of `stream_process_message` (lines 641-778). -/

/-- A Python dict with string keys and JSON-like values. -/
abbrev Dict : Type := List (String × Val)

/-- A LangGraph update chunk, `{node_name: state_data}`: every value of the
chunk is a state dict (the source's `isinstance(state_data, dict)` test is
true by construction). -/
abbrev Chunk : Type := List (String × Dict)

/-- Truthiness of `d.get(k)` with falsy default (`bool(d.get(k))`). -/
def truthyKey (d : Dict) (k : String) : Bool :=
  match aget d k with
  | some v => v.truthy
  | none => false

/-- Truthiness of `d.get(k, default)` for a boolean default. -/
def truthyKeyD (d : Dict) (k : String) (default : Bool) : Bool :=
  match aget d k with
  | some v => v.truthy
  | none => default

/-- String value of `d.get(k, default)`.  A present non-string value is
collapsed to the default; in the embedded call sites the value is compared
against string literals, and a non-string compares unequal to every string
literal exactly as the default does. -/
def getStrD (d : Dict) (k : String) (default : String) : String :=
  match aget d k with
  | some (Val.str s) => s
  | _ => default

/-- Python `str.strip()`: remove leading and trailing whitespace.
Implemented over the character list so that it evaluates by kernel
reduction (`String.trim` does not). -/
def pyStrip (s : String) : String :=
  String.mk (((s.data.dropWhile Char.isWhitespace).reverse.dropWhile
    Char.isWhitespace).reverse)

/-- Python `str.lower()`, over the character list for kernel reduction. -/
def pyLower (s : String) : String :=
  String.mk (s.data.map Char.toLower)

/-- The extraction of `actual_state_data` from a LangGraph updates-format
chunk (lines 653-657 and 873-877): successive `dict.update` of the per-node
state dicts into an initially empty dict. -/
def flatten_chunk (chunk : Chunk) : Dict :=
  chunk.foldl (fun acc p => aupdate acc p.2) []

/-- The fixed exclusion set of `_calculate_state_delta`,
`_filter_chunk_for_streaming` and `_create_clean_state_copy_from_actual_data`. -/
def excluded_keys : List String :=
  ["user_image", "image", "attention_overlay", "messages", "last_update_time"]

/-- `_calculate_state_delta` (lines 859-896): flatten the updates-format
chunk, then keep exactly the non-excluded keys that are new or whose value
changed against the previous flat state; an empty previous state is handled
by the dedicated first-state branch of the source. -/
def calculate_state_delta (current_state : Chunk) (previous_state : Dict) : Dict :=
  let actual_state_data := flatten_chunk current_state
  if previous_state.isEmpty then
    actual_state_data.filter (fun kv => decide (kv.1 ∉ excluded_keys))
  else
    actual_state_data.filter
      (fun kv => decide (kv.1 ∉ excluded_keys ∧ aget previous_state kv.1 ≠ some kv.2))

/-- Step 1 of `_filter_chunk_for_streaming` (lines 816-819): remove the
large base64 image keys. -/
def filter_images (f : Dict) : Dict :=
  adel (adel f "user_image") "image"

/-- Step 2 (lines 821-823): remove `attention_overlay`. -/
def filter_overlay (f : Dict) : Dict :=
  adel f "attention_overlay"

/-- Lines 825-835: remove `assistant_response` from the state update unless
the node set `stream_in_state_update` or `response_status == "state_only"`;
the flags are read from the original chunk argument, as in the source. -/
def filter_assistant (chunk f : Dict) : Dict :=
  if amem f "assistant_response" then
    if !truthyKeyD chunk "stream_in_state_update" false &&
        getStrD chunk "response_status" "final" != "state_only" then
      adel f "assistant_response"
    else f
  else f

/-- Step 3 (lines 837-839): remove `messages`. -/
def filter_messages (f : Dict) : Dict :=
  adel f "messages"

/-- Step 4 (lines 841-851): prune the verbose sub-fields of a dict-valued
`classification_results` and write the pruned dict back. -/
def prune_classification (f : Dict) : Dict :=
  match aget f "classification_results" with
  | some (Val.obj classification) =>
      aset f "classification_results"
        (Val.obj (adel (adel (adel classification "raw_predictions") "plant_context")
          "attention_overlay"))
  | _ => f

/-- Step 5 (lines 853-855): remove `last_update_time`. -/
def filter_timestamps (f : Dict) : Dict :=
  adel f "last_update_time"

/-- `_filter_chunk_for_streaming` (lines 800-857), value-level semantics of
the returned filtered dict: the five steps above in source order.  The
aliasing side effect of the sub-dict pruning on the caller's dict is
modelled separately by `filter_chunk_for_streaming_heap`. -/
def filter_chunk_for_streaming (chunk : Dict) : Dict :=
  filter_timestamps (prune_classification (filter_messages
    (filter_assistant chunk (filter_overlay (filter_images chunk)))))

/-- `_create_clean_state_copy_from_actual_data` (lines 898-920): copy of the
flat state without the excluded keys. -/
def create_clean_state_copy (actual_state_data : Dict) : Dict :=
  actual_state_data.filter (fun kv => decide (kv.1 ∉ excluded_keys))

/-- The typed events yielded by `stream_process_message` (section 6.2 of the
spec).  The terminal `error` event of the enclosing exception handler is not
reachable in the embedded total functions. -/
inductive StreamEvent where
  | stateUpdate (data : Dict) : StreamEvent
  | assistantResponse (text : String) : StreamEvent
  | attentionOverlay (overlay : String) (diseaseName confidence : Val)
      (sourceNode : String) : StreamEvent
  deriving Repr, DecidableEq

/-- The overlay scan of lines 667-675: the first dict value of the delta
whose `attention_overlay` entry is truthy.  Overlay payloads are base64
strings (spec section 3.1); a non-string truthy value would raise in the
source when sliced, so only string values produce an overlay here. -/
def find_overlay : Dict → Option String
  | [] => none
  | (_, v) :: rest =>
      match v with
      | Val.obj d =>
          if truthyKey d "attention_overlay" then
            match aget d "attention_overlay" with
            | some (Val.str s) => some s
            | _ => none
          else find_overlay rest
      | _ => find_overlay rest

/-- The rolling response-hash buffer update of lines 754-756: append, then
drop the oldest entry when more than 3 are held. -/
def push_hash (hashes : List String) (h : String) : List String :=
  if (hashes ++ [h]).length > 3 then (hashes ++ [h]).drop 1 else hashes ++ [h]

/-- Mutable loop state of one streaming session: the tracked previous flat
state (line 635), the per-session set of streamed overlay hashes (line 682)
and the per-session rolling list of response hashes (line 733). -/
structure StreamSt where
  prev : Dict
  overlays : List String
  hashes : List String
  deriving Repr, DecidableEq

/-- The `source_node` of lines 664: `actual_state_data.get("current_node",
"unknown")`. -/
def overlay_source_node (actual : Dict) : String :=
  getStrD actual "current_node" "unknown"

/-- The overlay deduplication hash of line 680,
`hash(temp_attention_overlay[:100] + session_id + source_node)`, modelled as
the hashed string itself. -/
def overlay_hash_of (session_id overlay : String) (actual : Dict) : String :=
  overlay.take 100 ++ session_id ++ overlay_source_node actual

/-- Lines 662-703: emit at most one `attention_overlay` event per chunk,
suppressed when the overlay hash was already streamed for this session. -/
def overlay_step (session_id : String) (overlays : List String)
    (delta actual : Dict) : List StreamEvent × List String :=
  match find_overlay delta with
  | some overlay =>
      if overlay_hash_of session_id overlay actual ∈ overlays then ([], overlays)
      else
        ([StreamEvent.attentionOverlay overlay
            ((aget actual "disease_name").getD Val.null)
            ((aget actual "confidence").getD Val.null) (overlay_source_node actual)],
          overlay_hash_of session_id overlay actual :: overlays)
  | none => ([], overlays)

/-- Lines 705-715: emit a `state_update` event carrying the filtered delta
when both the delta and its filtered form are non-empty. -/
def state_update_step (delta : Dict) : List StreamEvent :=
  if delta.isEmpty then []
  else if (filter_chunk_for_streaming delta).isEmpty then []
  else [StreamEvent.stateUpdate (filter_chunk_for_streaming delta)]

/-- Lines 722-766: emit the chunk's `assistant_response` unless one of the
three suppressions applies (recent content hash, `stream_immediately` falsy,
`response_status == "intermediate"`); the source computes the suppressions
sequentially into `should_stream`, combined here into one conjunction.  The
hash of the full content is modelled as the content itself.  A present
non-string response is not emitted (the source would raise on `.strip()`). -/
def response_step (actual : Dict) (hashes : List String) :
    List StreamEvent × List String :=
  match aget actual "assistant_response" with
  | some (Val.str s) =>
      if s ≠ "" ∧ pyStrip s ≠ "" then
        if s ∉ hashes ∧ truthyKeyD actual "stream_immediately" true = true ∧
            getStrD actual "response_status" "final" ≠ "intermediate" then
          ([StreamEvent.assistantResponse s], push_hash hashes s)
        else ([], hashes)
      else ([], hashes)
  | _ => ([], hashes)

/-- One iteration of the `async for chunk in self.app.astream(...)` loop of
`stream_process_message` (lines 641-778), in source order: delta
computation, overlay emission, state-update emission, assistant-response
emission, then the clean previous-state copy for the next iteration. -/
def process_chunk (session_id : String) (st : StreamSt) (chunk : Chunk) :
    StreamSt × List StreamEvent :=
  ({ prev := create_clean_state_copy (flatten_chunk chunk)
   , overlays := (overlay_step session_id st.overlays
       (calculate_state_delta chunk st.prev) (flatten_chunk chunk)).2
   , hashes := (response_step (flatten_chunk chunk) st.hashes).2 },
    (overlay_step session_id st.overlays
        (calculate_state_delta chunk st.prev) (flatten_chunk chunk)).1 ++
      state_update_step (calculate_state_delta chunk st.prev) ++
      (response_step (flatten_chunk chunk) st.hashes).1)

/-- The event trace produced by the streaming loop on a sequence of workflow
update chunks, starting from an arbitrary session loop state. -/
def stream_events (session_id : String) (st : StreamSt) : List Chunk → List StreamEvent
  | [] => []
  | chunk :: rest =>
      let step := process_chunk session_id st chunk
      step.2 ++ stream_events session_id step.1 rest

/-- `stream_process_message` for one fresh session: previous state starts
empty (line 635) and the per-session hash stores start empty. -/
def stream_process_message (session_id : String) (chunks : List Chunk) :
    List StreamEvent :=
  stream_events session_id ⟨[], [], []⟩ chunks

/-! ## Lemmas about the dict operations and the delta computation -/

theorem aget_adel_none {κ α : Type} [DecidableEq κ] (l : List (κ × α)) (k k' : κ)
    (h : aget l k = none) : aget (adel l k') k = none := by
  by_cases hk : k = k'
  · subst hk
    exact aget_adel_self l k
  · rw [aget_adel_ne l k' k hk]
    exact h

theorem aget_aset_none {κ α : Type} [DecidableEq κ] (l : List (κ × α)) (k k' : κ) (v : α)
    (hk : k ≠ k') (h : aget l k = none) : aget (aset l k' v) k = none := by
  rw [aget_aset_ne l k' k v hk]
  exact h

theorem keys_nodup_flatten (chunk : Chunk) : (akeys (flatten_chunk chunk)).Nodup := by
  suffices H : ∀ (l : Chunk) (acc : Dict), (akeys acc).Nodup →
      (akeys (l.foldl (fun acc p => aupdate acc p.2) acc)).Nodup by
    exact H chunk [] (by simp [akeys])
  intro l
  induction l with
  | nil =>
      intro acc h
      simpa using h
  | cons hd tl ih =>
      intro acc h
      exact ih _ (keys_nodup_aupdate hd.2 acc h)

theorem aget_filter_some {κ α : Type} [DecidableEq κ] (l : List (κ × α))
    (p : κ × α → Bool) (k : κ) (v : α) (h : (akeys l).Nodup) :
    aget (l.filter p) k = some v ↔ aget l k = some v ∧ p (k, v) = true := by
  have hsub : List.Sublist (akeys (l.filter p)) (akeys l) :=
    List.Sublist.map Prod.fst (List.filter_sublist l)
  have h' : (akeys (l.filter p)).Nodup := List.Nodup.sublist hsub h
  rw [aget_eq_some_iff_mem _ _ _ h', aget_eq_some_iff_mem _ _ _ h, List.mem_filter]

/-- Pointwise characterisation of `_calculate_state_delta`: a key maps to a
value in the delta exactly when the flattened chunk maps it to that value,
the key is not excluded, and the previous flat state did not already map it
to the same value. -/
theorem aget_calculate_state_delta (current_state : Chunk) (previous_state : Dict)
    (k : String) (v : Val) :
    aget (calculate_state_delta current_state previous_state) k = some v ↔
      (aget (flatten_chunk current_state) k = some v ∧ k ∉ excluded_keys ∧
        aget previous_state k ≠ some v) := by
  unfold calculate_state_delta
  by_cases hp : previous_state.isEmpty
  · rw [if_pos hp]
    rw [aget_filter_some _ _ _ _ (keys_nodup_flatten current_state)]
    have hnil : previous_state = [] := by
      cases previous_state
      · rfl
      · simp [List.isEmpty] at hp
    subst hnil
    simp [aget]
  · rw [if_neg hp]
    rw [aget_filter_some _ _ _ _ (keys_nodup_flatten current_state)]
    simp

theorem calculate_state_delta_excluded (current_state : Chunk) (previous_state : Dict)
    (k : String) (hk : k ∈ excluded_keys) :
    aget (calculate_state_delta current_state previous_state) k = none := by
  cases h : aget (calculate_state_delta current_state previous_state) k with
  | none => rfl
  | some v =>
      exact absurd hk
        ((aget_calculate_state_delta current_state previous_state k v).mp h).2.1

theorem filter_assistant_none (chunk f : Dict) (k : String) (h : aget f k = none) :
    aget (filter_assistant chunk f) k = none := by
  unfold filter_assistant
  split
  · split
    · exact aget_adel_none f k _ h
    · exact h
  · exact h

theorem prune_classification_none (f : Dict) (k : String)
    (hk : k ≠ "classification_results") (h : aget f k = none) :
    aget (prune_classification f) k = none := by
  unfold prune_classification
  split
  · exact aget_aset_none f k _ _ hk h
  · exact h

/-- The streaming filter never introduces a binding for a key other than
`classification_results`. -/
theorem filter_chunk_preserves_none (chunk : Dict) (k : String)
    (hk : k ≠ "classification_results") (h : aget chunk k = none) :
    aget (filter_chunk_for_streaming chunk) k = none := by
  unfold filter_chunk_for_streaming filter_timestamps filter_messages filter_overlay
    filter_images
  exact aget_adel_none _ k _ (prune_classification_none _ k hk
    (aget_adel_none _ k _ (filter_assistant_none chunk _ k
      (aget_adel_none _ k _ (aget_adel_none _ k _ (aget_adel_none _ k _ h))))))

/-! ## Inversion lemmas for the per-chunk streaming step -/

theorem state_update_not_mem_overlay_step (session_id : String) (overlays : List String)
    (delta actual : Dict) (d : Dict) :
    StreamEvent.stateUpdate d ∉ (overlay_step session_id overlays delta actual).1 := by
  unfold overlay_step
  split
  · split <;> simp
  · simp

theorem state_update_not_mem_response_step (actual : Dict) (hashes : List String)
    (d : Dict) :
    StreamEvent.stateUpdate d ∉ (response_step actual hashes).1 := by
  unfold response_step
  split
  · split
    · split <;> simp
    · simp
  · simp

theorem state_update_step_mem (delta : Dict) (d : Dict)
    (h : StreamEvent.stateUpdate d ∈ state_update_step delta) :
    d = filter_chunk_for_streaming delta := by
  unfold state_update_step at h
  split at h
  · simp at h
  · split at h
    · simp at h
    · simpa using h

/-- Every `state_update` event of one streaming step carries the filtered
delta of that chunk against the tracked previous state. -/
theorem state_update_mem_process_chunk (session_id : String) (st : StreamSt)
    (chunk : Chunk) (d : Dict)
    (h : StreamEvent.stateUpdate d ∈ (process_chunk session_id st chunk).2) :
    d = filter_chunk_for_streaming (calculate_state_delta chunk st.prev) := by
  unfold process_chunk at h
  simp only [List.mem_append] at h
  rcases h with (h | h) | h
  · exact absurd h (state_update_not_mem_overlay_step _ _ _ _ _)
  · exact state_update_step_mem _ _ h
  · exact absurd h (state_update_not_mem_response_step _ _ _)

/-! ## Claims C1 and C4 -/

/-- C1: for every `state_update` event payload emitted by the streaming
layer (`stream_process_message`, modelled by `stream_events` from an
arbitrary session loop state), the keys `user_image`, `image`,
`attention_overlay`, `messages` and `last_update_time` are absent, for
every sequence of workflow update chunks. -/
theorem C1_state_update_payload_has_no_excluded_keys
    (session_id : String) (st : StreamSt) (chunks : List Chunk) (d : Dict) (k : String)
    (hmem : StreamEvent.stateUpdate d ∈ stream_events session_id st chunks)
    (hk : k ∈ excluded_keys) : aget d k = none := by
  induction chunks generalizing st with
  | nil => simp [stream_events] at hmem
  | cons c rest ih =>
      simp only [stream_events, List.mem_append] at hmem
      rcases hmem with h | h
      · have hd := state_update_mem_process_chunk session_id st c d h
        subst hd
        have hkne : k ≠ "classification_results" := by
          intro he
          subst he
          exact absurd hk (by decide)
        exact filter_chunk_preserves_none _ k hkne
          (calculate_state_delta_excluded c st.prev k hk)
      · exact ih _ h

/-- Witness for C1 at a concrete one-chunk stream that emits a
`state_update` event. -/
theorem C1_witness :
    (StreamEvent.stateUpdate [("current_node", Val.str "initial")] ∈
        stream_events "s1" ⟨[], [], []⟩
          [[("initial", [("current_node", Val.str "initial")])]] ∧
      "user_image" ∈ excluded_keys) ∧
      aget [("current_node", Val.str "initial")] "user_image" = none :=
  ⟨⟨by decide, by decide⟩,
    C1_state_update_payload_has_no_excluded_keys "s1" ⟨[], [], []⟩
      [[("initial", [("current_node", Val.str "initial")])]]
      [("current_node", Val.str "initial")] "user_image" (by decide) (by decide)⟩

/-- C4: for every pair of consecutive flat states, `_calculate_state_delta`
returns exactly the keys whose value is absent from the previous state or
differs from it, minus the fixed exclusion set: a key maps to a value in
the delta iff the flattened current chunk maps it to that value, the key is
not excluded, and the previous flat state did not map it to the same
value. -/
theorem C4_delta_is_exactly_the_changed_nonexcluded_keys
    (current_state : Chunk) (previous_state : Dict) (k : String) (v : Val) :
    aget (calculate_state_delta current_state previous_state) k = some v ↔
      (aget (flatten_chunk current_state) k = some v ∧ k ∉ excluded_keys ∧
        aget previous_state k ≠ some v) :=
  aget_calculate_state_delta current_state previous_state k v

/-! ## Claim C5: overlay deduplication -/

/-- The deduplication key carried by an `attention_overlay` event:
first 100 characters of the overlay content, the session id and the source
node, concatenated as in line 680 of the source. -/
def overlay_key_of (session_id : String) : StreamEvent → Option String
  | StreamEvent.attentionOverlay overlay _ _ source_node =>
      some (overlay.take 100 ++ session_id ++ source_node)
  | _ => none

theorem overlay_step_spec (session_id : String) (ovs : List String)
    (delta actual : Dict) :
    ((overlay_step session_id ovs delta actual).1.filterMap
        (overlay_key_of session_id) = [] ∧
      (overlay_step session_id ovs delta actual).2 = ovs) ∨
    (∃ k, (overlay_step session_id ovs delta actual).1.filterMap
        (overlay_key_of session_id) = [k] ∧
      k ∉ ovs ∧ (overlay_step session_id ovs delta actual).2 = k :: ovs) := by
  unfold overlay_step
  split
  · split
    · exact Or.inl ⟨rfl, rfl⟩
    · right
      refine ⟨overlay_hash_of session_id _ actual, ?_, by assumption, rfl⟩
      simp [overlay_key_of, overlay_hash_of]
  · exact Or.inl ⟨rfl, rfl⟩

theorem state_update_step_no_overlay_keys (session_id : String) (delta : Dict) :
    (state_update_step delta).filterMap (overlay_key_of session_id) = [] := by
  unfold state_update_step
  split
  · rfl
  · split
    · rfl
    · simp [overlay_key_of]

theorem response_step_no_overlay_keys (session_id : String) (actual : Dict)
    (hashes : List String) :
    (response_step actual hashes).1.filterMap (overlay_key_of session_id) = [] := by
  unfold response_step
  split
  · split
    · split
      · simp [overlay_key_of]
      · rfl
    · rfl
  · rfl

/-- Overlay-key content of one streaming step: either no overlay event is
emitted and the session's overlay-hash set is unchanged, or exactly one is
emitted, with a key not yet in the set, and the key is recorded. -/
theorem process_chunk_overlay_spec (session_id : String) (st : StreamSt) (chunk : Chunk) :
    (((process_chunk session_id st chunk).2).filterMap (overlay_key_of session_id) = [] ∧
      (process_chunk session_id st chunk).1.overlays = st.overlays) ∨
    (∃ k, ((process_chunk session_id st chunk).2).filterMap
        (overlay_key_of session_id) = [k] ∧
      k ∉ st.overlays ∧
      (process_chunk session_id st chunk).1.overlays = k :: st.overlays) := by
  unfold process_chunk
  simp only [List.filterMap_append, state_update_step_no_overlay_keys,
    response_step_no_overlay_keys, List.append_nil]
  exact overlay_step_spec session_id st.overlays
    (calculate_state_delta chunk st.prev) (flatten_chunk chunk)

/-- C5: within any single session stream, at most one `attention_overlay`
event is emitted per unique key (first 100 characters of the overlay
content, session id, source node): the keys of the emitted overlay events
are pairwise distinct, and none of them was already recorded in the
session's overlay-hash set when the stream started. -/
theorem C5_at_most_one_overlay_event_per_key (session_id : String) (st : StreamSt)
    (chunks : List Chunk) :
    ((stream_events session_id st chunks).filterMap (overlay_key_of session_id)).Nodup ∧
      (∀ k ∈ (stream_events session_id st chunks).filterMap (overlay_key_of session_id),
        k ∉ st.overlays) := by
  induction chunks generalizing st with
  | nil => simp [stream_events]
  | cons c rest ih =>
      simp only [stream_events, List.filterMap_append]
      rcases process_chunk_overlay_spec session_id st c with ⟨h1, h2⟩ | ⟨k, h1, h2, h3⟩
      · rw [h1]
        obtain ⟨ihn, ihm⟩ := ih (process_chunk session_id st c).1
        refine ⟨by simpa using ihn, ?_⟩
        intro k' hk'
        have hm := ihm k' (by simpa using hk')
        rwa [h2] at hm
      · rw [h1]
        obtain ⟨ihn, ihm⟩ := ih (process_chunk session_id st c).1
        constructor
        · simp only [List.singleton_append, List.nodup_cons]
          refine ⟨?_, ihn⟩
          intro hkmem
          have hm := ihm k hkmem
          rw [h3] at hm
          exact hm (List.mem_cons_self k st.overlays)
        · intro k' hk'
          simp only [List.singleton_append, List.mem_cons] at hk'
          rcases hk' with hk' | hk'
          · subst hk'
            exact h2
          · have hm := ihm k' hk'
            rw [h3] at hm
            exact fun hc => hm (List.mem_cons_of_mem _ hc)

set_option maxRecDepth 4000 in
/-- Witness for C5 at a concrete stream that emits one overlay event. -/
theorem C5_witness :
    ((stream_events "s2" ⟨[], [], []⟩
        [[("classifying",
            [("current_node", Val.str "classifying"),
              ("classification_results", Val.obj [("attention_overlay", Val.str "OV")])])]]
      ).filterMap (overlay_key_of "s2")).Nodup ∧
      "OVs2classifying" ∉ (⟨[], [], []⟩ : StreamSt).overlays :=
  ⟨(C5_at_most_one_overlay_event_per_key "s2" ⟨[], [], []⟩ _).1,
    (C5_at_most_one_overlay_event_per_key "s2" ⟨[], [], []⟩
        [[("classifying",
            [("current_node", Val.str "classifying"),
              ("classification_results", Val.obj [("attention_overlay", Val.str "OV")])])]]
      ).2 "OVs2classifying" (by decide)⟩

/-! ## Claim C3: assistant_response emission -/

theorem push_hash_length_le (hashes : List String) (s : String)
    (h : hashes.length ≤ 3) : (push_hash hashes s).length ≤ 3 := by
  unfold push_hash
  split
  · simp only [List.length_drop, List.length_append, List.length_singleton]
    omega
  · next hc =>
      simp only [List.length_append, List.length_singleton]
      simp only [List.length_append, List.length_singleton, gt_iff_lt, not_lt] at hc
      omega

theorem mem_push_hash_self (hashes : List String) (s : String) :
    s ∈ push_hash hashes s := by
  unfold push_hash
  split
  · next hgt =>
      cases hashes with
      | nil => simp at hgt
      | cons a t => simp
  · simp

theorem assistant_not_mem_overlay_step (session_id : String) (ovs : List String)
    (delta actual : Dict) (s : String) :
    StreamEvent.assistantResponse s ∉ (overlay_step session_id ovs delta actual).1 := by
  unfold overlay_step
  split
  · split <;> simp
  · simp

theorem assistant_not_mem_state_update_step (delta : Dict) (s : String) :
    StreamEvent.assistantResponse s ∉ state_update_step delta := by
  unfold state_update_step
  split
  · simp
  · split <;> simp

/-- An `assistant_response` event of one streaming step can only come from
the response sub-step. -/
theorem mem_response_iff (session_id : String) (st : StreamSt) (chunk : Chunk)
    (s : String) :
    (StreamEvent.assistantResponse s ∈ (process_chunk session_id st chunk).2) ↔
      StreamEvent.assistantResponse s ∈
        (response_step (flatten_chunk chunk) st.hashes).1 := by
  unfold process_chunk
  simp only [List.mem_append]
  constructor
  · rintro ((h | h) | h)
    · exact absurd h (assistant_not_mem_overlay_step session_id st.overlays _ _ s)
    · exact absurd h (assistant_not_mem_state_update_step _ s)
    · exact h
  · intro h
    exact Or.inr h

theorem response_step_eq (actual : Dict) (hashes : List String) (s : String)
    (hresp : aget actual "assistant_response" = some (Val.str s)) :
    response_step actual hashes =
      if s ≠ "" ∧ pyStrip s ≠ "" then
        if s ∉ hashes ∧ truthyKeyD actual "stream_immediately" true = true ∧
            getStrD actual "response_status" "final" ≠ "intermediate" then
          ([StreamEvent.assistantResponse s], push_hash hashes s)
        else ([], hashes)
      else ([], hashes) := by
  unfold response_step
  rw [hresp]

theorem response_step_spec (actual : Dict) (hashes : List String) (s : String)
    (hresp : aget actual "assistant_response" = some (Val.str s))
    (hs : pyStrip s ≠ "") :
    ((StreamEvent.assistantResponse s ∈ (response_step actual hashes).1) ↔
      (s ∉ hashes ∧ truthyKeyD actual "stream_immediately" true = true ∧
        getStrD actual "response_status" "final" ≠ "intermediate")) ∧
    ((StreamEvent.assistantResponse s ∈ (response_step actual hashes).1) →
      (response_step actual hashes).2 = push_hash hashes s) ∧
    ((response_step actual hashes).2 = hashes ∨
      (response_step actual hashes).2 = push_hash hashes s) := by
  have hne : s ≠ "" := by
    intro he
    exact hs (by rw [he]; decide)
  rw [response_step_eq actual hashes s hresp, if_pos ⟨hne, hs⟩]
  by_cases hc : (s ∉ hashes ∧ truthyKeyD actual "stream_immediately" true = true ∧
      getStrD actual "response_status" "final" ≠ "intermediate")
  · rw [if_pos hc]
    exact ⟨iff_of_true (List.mem_singleton_self _) hc, fun _ => rfl, Or.inr rfl⟩
  · rw [if_neg hc]
    exact ⟨iff_of_false (by simp) hc, fun h => absurd h (by simp), Or.inl rfl⟩

/-- Counterexample to C3 as stated: the chunk carries the non-empty
assistant response `" "` and none of the three suppressions applies (the
hash buffer is empty, `stream_immediately` defaults to true,
`response_status` defaults to `"final"`), yet no `assistant_response` event
is emitted, because the source additionally requires
`assistant_response.strip()` to be truthy (line 726). -/
theorem C3_counterexample :
    (aget (flatten_chunk [("node", [("assistant_response", Val.str " ")])])
        "assistant_response" = some (Val.str " ") ∧
      (" " : String) ≠ "" ∧
      " " ∉ (StreamSt.mk [] [] []).hashes ∧
      truthyKeyD (flatten_chunk [("node", [("assistant_response", Val.str " ")])])
        "stream_immediately" true = true ∧
      getStrD (flatten_chunk [("node", [("assistant_response", Val.str " ")])])
        "response_status" "final" ≠ "intermediate") ∧
    StreamEvent.assistantResponse " " ∉
      (process_chunk "s3" ⟨[], [], []⟩
        [("node", [("assistant_response", Val.str " ")])]).2 :=
  ⟨⟨by decide, by decide, by decide, by decide, by decide⟩, by decide⟩

/-- C3 (amended): for every workflow update chunk whose assistant response
is non-blank (non-empty after stripping whitespace), the streaming layer
emits an `assistant_response` event iff none of the three suppressions
applies: (a) the full-content hash is among the session's rolling buffer of
recently emitted hashes, (b) `stream_immediately` is falsy (defaulting to
true when absent), (c) `response_status` equals `"intermediate"`
(defaulting to `"final"` when absent); when it emits, it pushes the hash
onto the rolling buffer, and the buffer never holds more than 3 hashes. -/
theorem C3_assistant_response_emission (session_id : String) (st : StreamSt)
    (chunk : Chunk) (s : String)
    (hresp : aget (flatten_chunk chunk) "assistant_response" = some (Val.str s))
    (hs : pyStrip s ≠ "") (hlen : st.hashes.length ≤ 3) :
    ((StreamEvent.assistantResponse s ∈ (process_chunk session_id st chunk).2) ↔
      (s ∉ st.hashes ∧
        truthyKeyD (flatten_chunk chunk) "stream_immediately" true = true ∧
        getStrD (flatten_chunk chunk) "response_status" "final" ≠ "intermediate")) ∧
    ((StreamEvent.assistantResponse s ∈ (process_chunk session_id st chunk).2) →
      (process_chunk session_id st chunk).1.hashes = push_hash st.hashes s ∧
        s ∈ (process_chunk session_id st chunk).1.hashes) ∧
    (process_chunk session_id st chunk).1.hashes.length ≤ 3 := by
  have key := response_step_spec (flatten_chunk chunk) st.hashes s hresp hs
  have hmem := mem_response_iff session_id st chunk s
  have hh : (process_chunk session_id st chunk).1.hashes =
      (response_step (flatten_chunk chunk) st.hashes).2 := rfl
  refine ⟨hmem.trans key.1, ?_, ?_⟩
  · intro h
    have h2 := key.2.1 (hmem.mp h)
    refine ⟨by rw [hh, h2], ?_⟩
    rw [hh, h2]
    exact mem_push_hash_self st.hashes s
  · rcases key.2.2 with he | he
    · rw [hh, he]
      exact hlen
    · rw [hh, he]
      exact push_hash_length_le st.hashes s hlen

set_option maxRecDepth 4000 in
/-- Witness for the amended C3 at a concrete chunk that emits. -/
theorem C3_witness :
    StreamEvent.assistantResponse "hello" ∈
        (process_chunk "s4" ⟨[], [], []⟩
          [("node", [("assistant_response", Val.str "hello")])]).2 ∧
      (process_chunk "s4" ⟨[], [], []⟩
        [("node", [("assistant_response", Val.str "hello")])]).1.hashes.length ≤ 3 :=
  ⟨(C3_assistant_response_emission "s4" ⟨[], [], []⟩
      [("node", [("assistant_response", Val.str "hello")])] "hello"
      (by decide) (by decide) (by decide)).1.mpr ⟨by decide, by decide, by decide⟩,
    (C3_assistant_response_emission "s4" ⟨[], [], []⟩
      [("node", [("assistant_response", Val.str "hello")])] "hello"
      (by decide) (by decide) (by decide)).2.2⟩

/-! ## Initial node: continuing-conversation detection and intent parsing

Embedding of `src/fsm_agent/core/nodes/initial_node.py`:
`_is_continuing_conversation` (lines 557-654) and `_parse_intent_response`
(lines 444-495). -/

/-- The `msg.get("role")` access of lines 586-587; a non-dict message entry
yields no role (the source would raise on `.get`). -/
def msg_role (m : Val) : Option Val :=
  match m with
  | Val.obj d => aget d "role"
  | _ => none

/-- The `msg.get("content", "")` access of line 614. -/
def msg_content (m : Val) : Val :=
  match m with
  | Val.obj d => (aget d "content").getD (Val.str "")
  | _ => Val.str ""

/-- The role comparison `msg.get("role") == "assistant"` of lines 586-587. -/
def msg_role_is (m : Val) (r : String) : Bool :=
  match msg_role m with
  | some v => Val.beq v (Val.str r)
  | none => false

/-- The `state.get("messages", [])` access of line 583; a non-list value is
read as the empty default (the source would raise when iterating it). -/
def get_messages (state : Dict) : List Val :=
  match aget state "messages" with
  | some (Val.arr l) => l
  | _ => []

/-- `_is_continuing_conversation` (lines 557-654): `session_ended` short-
circuits to a NEW conversation; otherwise continuation is decided from
prior workflow results, assistant participation in the loaded message
history (with the app-duplicate heuristic of lines 613-620), and whether
the loaded `current_node` shows the session mid-workflow, except when a
completed state carries no meaningful history. -/
def is_continuing_conversation (state : Dict) : Bool :=
  if truthyKey state "session_ended" then false
  else
    let has_previous_results := truthyKey state "classification_results" ||
      truthyKey state "prescription_data" || truthyKey state "vendor_options" ||
      truthyKey state "disease_name"
    let messages := get_messages state
    let assistant_messages := messages.filter (fun m => msg_role_is m "assistant")
    let user_messages := messages.filter (fun m => msg_role_is m "user")
    let has_meaningful_conversation := decide (assistant_messages.length > 0)
    let has_workflow_results := truthyKey state "classification_results" ||
      truthyKey state "prescription_data" || truthyKey state "vendor_options"
    let has_conversation_history := has_meaningful_conversation || has_workflow_results
    let current_user_message := (aget state "user_message").getD (Val.str "")
    let has_conversation_history :=
      if decide (user_messages.length > 1) && decide (assistant_messages.length = 0) then
        if decide (((user_messages.drop (user_messages.length - 3)).map msg_content).countP
            (fun c => Val.beq c current_user_message) > 1) then
          if has_workflow_results then has_conversation_history else false
        else has_conversation_history
      else has_conversation_history
    let current_node := (aget state "current_node").getD (Val.str "initial")
    let was_in_middle_of_workflow := !Val.beq current_node (Val.str "initial")
    let is_in_completed_state := Val.beq current_node (Val.str "completed") &&
      !truthyKey state "requires_user_input"
    let should_treat_completed_as_new := is_in_completed_state &&
      !(has_meaningful_conversation || has_workflow_results)
    (has_previous_results || has_conversation_history || was_in_middle_of_workflow) &&
      !should_treat_completed_as_new

/-- C2: for every loaded session state in which `session_ended` is true, the
initial node's continuing-conversation predicate returns false, so the turn
is treated as a NEW conversation regardless of the message history or prior
workflow results stored in that state. -/
theorem C2_session_ended_forces_new_conversation (state : Dict)
    (h : aget state "session_ended" = some (Val.bool true)) :
    is_continuing_conversation state = false := by
  unfold is_continuing_conversation
  rw [show truthyKey state "session_ended" = true by
    unfold truthyKey
    rw [h]
    rfl]
  rfl

/-- Witness for C2 at a concrete ended session that carries both message
history and workflow results. -/
theorem C2_witness :
    aget [("session_id", Val.str "s"), ("session_ended", Val.bool true),
        ("messages", Val.arr [Val.obj [("role", Val.str "assistant"),
          ("content", Val.str "report")]]),
        ("classification_results", Val.obj [("disease_name", Val.str "rust")])]
      "session_ended" = some (Val.bool true) ∧
    is_continuing_conversation
      [("session_id", Val.str "s"), ("session_ended", Val.bool true),
        ("messages", Val.arr [Val.obj [("role", Val.str "assistant"),
          ("content", Val.str "report")]]),
        ("classification_results", Val.obj [("disease_name", Val.str "rust")])] = false :=
  ⟨by decide,
    C2_session_ended_forces_new_conversation
      [("session_id", Val.str "s"), ("session_ended", Val.bool true),
        ("messages", Val.arr [Val.obj [("role", Val.str "assistant"),
          ("content", Val.str "report")]]),
        ("classification_results", Val.obj [("disease_name", Val.str "rust")])]
      (by decide)⟩

/-! ## Claim C8: intent-response parsing -/

theorem truthyKey_aset_self (d : Dict) (k : String) (v : Val) :
    truthyKey (aset d k v) k = v.truthy := by
  unfold truthyKey
  rw [aget_aset_self]

theorem truthyKey_aset_ne (d : Dict) (k k' : String) (v : Val) (h : k' ≠ k) :
    truthyKey (aset d k v) k' = truthyKey d k' := by
  unfold truthyKey
  rw [aget_aset_ne d k k' v h]

/-- The `default_intent` dict of `_parse_intent_response` (lines 456-468),
in source order. -/
def default_intent : Dict :=
  [("wants_classification", Val.bool false),
   ("wants_prescription", Val.bool false),
   ("wants_vendors", Val.bool false),
   ("wants_full_workflow", Val.bool false),
   ("wants_insurance", Val.bool false),
   ("wants_insurance_premium", Val.bool false),
   ("wants_insurance_companies", Val.bool false),
   ("wants_insurance_recommendation", Val.bool false),
   ("wants_insurance_purchase", Val.bool false),
   ("is_general_question", Val.bool false),
   ("general_answer", Val.str "")]

/-- First dependency rule of lines 475-476. -/
def intent_rule1 (intent : Dict) : Dict :=
  if truthyKey intent "wants_prescription" || truthyKey intent "wants_vendors" ||
      truthyKey intent "wants_full_workflow" then
    aset intent "wants_classification" (Val.bool true)
  else intent

/-- Second dependency rule of lines 478-480. -/
def intent_rule2 (intent : Dict) : Dict :=
  if truthyKey intent "wants_vendors" || truthyKey intent "wants_full_workflow" then
    aset (aset intent "wants_prescription" (Val.bool true))
      "wants_classification" (Val.bool true)
  else intent

/-- Third dependency rule of lines 482-485. -/
def intent_rule3 (intent : Dict) : Dict :=
  if truthyKey intent "wants_full_workflow" then
    aset (aset (aset intent "wants_vendors" (Val.bool true))
      "wants_prescription" (Val.bool true)) "wants_classification" (Val.bool true)
  else intent

/-- The dependency-rule block of lines 472-485, applied in source order. -/
def apply_intent_rules (intent : Dict) : Dict :=
  intent_rule3 (intent_rule2 (intent_rule1 intent))

/-- `_parse_intent_response` (lines 444-495) on a successfully decoded JSON
intent object `j` (the brace extraction and `json.loads` of lines 448-453
are not modelled; response texts without a decodable object return `None`
and fall back, producing no intent record): merge the decoded object over
the defaults, then apply the dependency rules only when
`is_general_question` is falsy. -/
def parse_intent_response (j : Dict) : Dict :=
  if truthyKey (aupdate default_intent j) "is_general_question" then
    aupdate default_intent j
  else
    apply_intent_rules (aupdate default_intent j)

theorem apply_intent_rules_closure (d : Dict) :
    (truthyKey (apply_intent_rules d) "wants_prescription" = true →
      truthyKey (apply_intent_rules d) "wants_classification" = true) ∧
    (truthyKey (apply_intent_rules d) "wants_full_workflow" = true →
      truthyKey (apply_intent_rules d) "wants_prescription" = true ∧
        truthyKey (apply_intent_rules d) "wants_classification" = true) := by
  unfold apply_intent_rules intent_rule3
  by_cases h3 : truthyKey (intent_rule2 (intent_rule1 d)) "wants_full_workflow" = true
  · rw [if_pos h3]
    constructor
    · intro _
      rw [truthyKey_aset_self]
      rfl
    · intro _
      constructor
      · rw [truthyKey_aset_ne _ _ _ _ (by decide), truthyKey_aset_self]
        rfl
      · rw [truthyKey_aset_self]
        rfl
  · rw [if_neg h3]
    unfold intent_rule2 at h3 ⊢
    by_cases h2 : (truthyKey (intent_rule1 d) "wants_vendors" ||
        truthyKey (intent_rule1 d) "wants_full_workflow") = true
    · rw [if_pos h2] at h3 ⊢
      constructor
      · intro _
        rw [truthyKey_aset_self]
        rfl
      · intro hwf
        exact absurd hwf h3
    · rw [if_neg h2] at h3 ⊢
      rw [Bool.or_eq_true] at h2
      push_neg at h2
      constructor
      · unfold intent_rule1
        by_cases h1 : (truthyKey d "wants_prescription" || truthyKey d "wants_vendors" ||
            truthyKey d "wants_full_workflow") = true
        · rw [if_pos h1]
          intro _
          rw [truthyKey_aset_self]
          rfl
        · rw [if_neg h1]
          intro hp
          rw [Bool.or_eq_true, Bool.or_eq_true] at h1
          push_neg at h1
          exact absurd hp h1.1.1
      · intro hwf
        exact absurd hwf h2.2

/-- Counterexample to C8 as stated: (1) when the decoded object sets
`is_general_question` together with `wants_prescription`, the dependency
rules are skipped (line 474) and the produced record has
`wants_prescription` without `wants_classification`; (2) the parser never
enforces the `out_of_scope` clearing, so an object with both `out_of_scope`
and `wants_classification` keeps both. -/
theorem C8_counterexample :
    (truthyKey (parse_intent_response
        [("is_general_question", Val.bool true), ("wants_prescription", Val.bool true)])
      "wants_prescription" = true ∧
     truthyKey (parse_intent_response
        [("is_general_question", Val.bool true), ("wants_prescription", Val.bool true)])
      "wants_classification" = false) ∧
    (truthyKey (parse_intent_response
        [("out_of_scope", Val.bool true), ("wants_classification", Val.bool true)])
      "out_of_scope" = true ∧
     truthyKey (parse_intent_response
        [("out_of_scope", Val.bool true), ("wants_classification", Val.bool true)])
      "wants_classification" = true) :=
  ⟨⟨by decide, by decide⟩, ⟨by decide, by decide⟩⟩

/-- C8 (amended): every intent record produced by the initial node's
intent-response parsing whose `is_general_question` field is falsy
satisfies the enforced part of the dependency closure: `wants_prescription`
implies `wants_classification`, and `wants_full_workflow` implies both
`wants_prescription` and `wants_classification`.  The parser skips these
rules when `is_general_question` is truthy, and it never enforces the
`out_of_scope` clearing (that is only requested of the LLM in the prompt). -/
theorem C8_intent_dependency_closure (j : Dict)
    (hg : truthyKey (parse_intent_response j) "is_general_question" = false) :
    (truthyKey (parse_intent_response j) "wants_prescription" = true →
      truthyKey (parse_intent_response j) "wants_classification" = true) ∧
    (truthyKey (parse_intent_response j) "wants_full_workflow" = true →
      truthyKey (parse_intent_response j) "wants_prescription" = true ∧
        truthyKey (parse_intent_response j) "wants_classification" = true) := by
  unfold parse_intent_response at hg ⊢
  by_cases h0 : truthyKey (aupdate default_intent j) "is_general_question" = true
  · rw [if_pos h0] at hg
    rw [h0] at hg
    exact Bool.noConfusion hg
  · rw [if_neg h0]
    exact apply_intent_rules_closure (aupdate default_intent j)

/-- Witness for the amended C8 at a concrete decoded intent object. -/
theorem C8_witness :
    truthyKey (parse_intent_response [("wants_prescription", Val.bool true)])
      "is_general_question" = false ∧
    truthyKey (parse_intent_response [("wants_prescription", Val.bool true)])
      "wants_classification" = true :=
  ⟨by decide,
    (C8_intent_dependency_closure [("wants_prescription", Val.bool true)]
      (by decide)).1 (by decide)⟩

/-! ## Classification tool: dual-evaluation decision

Embedding of `src/fsm_agent/tools/classification_tool.py::_compare_and_decide`
(lines 223-301).  The `similarity` logging value and the formatted
`final_description` strings are omitted: both interpolate floating-point
values (`:.2%`), which no claim observes. -/

/-- The unknown-classification names of line 236. -/
def unknown_names : List String :=
  ["unknown", "uncertain", "unidentified", "not_identified"]

/-- Line 235-236: `cnn_result.get("disease_name", "").lower()` tested
against the unknown names. -/
def cnn_is_unknown (cnn_result : Dict) : Bool :=
  unknown_names.contains (pyLower (getStrD cnn_result "disease_name" ""))

/-- The decision record assembled by `_compare_and_decide` (lines 242-251). -/
structure DecisionData where
  final_disease_name : Val
  final_confidence : Val
  final_severity : Val
  result_source : String
  is_unknown : Bool
  llava_available : Bool
  deriving Repr, DecidableEq

/-- `_compare_and_decide` (lines 223-301): use the secondary (LLaVA) result
only when the primary (CNN) name is unknown and the secondary evaluation
carries no truthy error; otherwise keep the primary result. -/
def compare_and_decide (cnn_result llava_result : Dict) : DecisionData :=
  if cnn_is_unknown cnn_result && !truthyKey llava_result "error" then
    { final_disease_name := (aget llava_result "disease_name").getD Val.null
    , final_confidence := (aget llava_result "confidence").getD (Val.int 0)
    , final_severity := (aget llava_result "severity").getD (Val.str "moderate")
    , result_source := "sme"
    , is_unknown := cnn_is_unknown cnn_result
    , llava_available := !truthyKey llava_result "error" }
  else if cnn_is_unknown cnn_result then
    { final_disease_name := (aget cnn_result "disease_name").getD Val.null
    , final_confidence := (aget cnn_result "confidence").getD (Val.int 0)
    , final_severity := Val.str "moderate"
    , result_source := "cnn"
    , is_unknown := cnn_is_unknown cnn_result
    , llava_available := !truthyKey llava_result "error" }
  else
    { final_disease_name := (aget cnn_result "disease_name").getD Val.null
    , final_confidence := (aget cnn_result "confidence").getD (Val.int 0)
    , final_severity :=
        if !truthyKey llava_result "error" then
          (aget llava_result "severity").getD (Val.str "moderate")
        else Val.str "moderate"
    , result_source := "cnn"
    , is_unknown := cnn_is_unknown cnn_result
    , llava_available := !truthyKey llava_result "error" }

/-- Counterexample to C9 as stated: the primary disease name `"uncertain"`
is not `"unknown"`, yet the decision attributes the secondary (`"sme"`)
result, because line 236 treats `uncertain`, `unidentified` and
`not_identified` (case-insensitively) as unknown too. -/
theorem C9_counterexample :
    getStrD [("disease_name", Val.str "uncertain"), ("confidence", Val.int 90)]
        "disease_name" "" ≠ "unknown" ∧
    (compare_and_decide
        [("disease_name", Val.str "uncertain"), ("confidence", Val.int 90)]
        [("disease_name", Val.str "blight")]).result_source = "sme" ∧
    (compare_and_decide
        [("disease_name", Val.str "uncertain"), ("confidence", Val.int 90)]
        [("disease_name", Val.str "blight")]).final_disease_name = Val.str "blight" :=
  ⟨by decide, by decide, by decide⟩

/-- C9 (amended): the decision picks the primary (CNN) result whenever its
lowercased disease name is not among
`{unknown, uncertain, unidentified, not_identified}`; when it is, it
prefers the secondary (LLaVA) result if that evaluation carries no truthy
error, attributing source `"sme"`; and when the secondary is unavailable it
emits an uncertain result (severity `"moderate"`) attributed to the primary
source. -/
theorem C9_dual_evaluation_decision (cnn_result llava_result : Dict) :
    (cnn_is_unknown cnn_result = false →
      (compare_and_decide cnn_result llava_result).result_source = "cnn" ∧
      (compare_and_decide cnn_result llava_result).final_disease_name =
        (aget cnn_result "disease_name").getD Val.null) ∧
    (cnn_is_unknown cnn_result = true → truthyKey llava_result "error" = false →
      (compare_and_decide cnn_result llava_result).result_source = "sme" ∧
      (compare_and_decide cnn_result llava_result).final_disease_name =
        (aget llava_result "disease_name").getD Val.null) ∧
    (cnn_is_unknown cnn_result = true → truthyKey llava_result "error" = true →
      (compare_and_decide cnn_result llava_result).result_source = "cnn" ∧
      (compare_and_decide cnn_result llava_result).final_disease_name =
        (aget cnn_result "disease_name").getD Val.null ∧
      (compare_and_decide cnn_result llava_result).final_severity =
        Val.str "moderate") := by
  refine ⟨fun hu => ?_, fun hu he => ?_, fun hu he => ?_⟩
  · unfold compare_and_decide
    rw [hu]
    by_cases he : truthyKey llava_result "error" = true <;> simp [he]
  · unfold compare_and_decide
    rw [hu, he]
    exact ⟨rfl, rfl⟩
  · unfold compare_and_decide
    rw [hu, he]
    exact ⟨rfl, rfl, rfl⟩

/-- Witness for the amended C9 at concrete evaluation results. -/
theorem C9_witness :
    cnn_is_unknown [("disease_name", Val.str "rust"), ("confidence", Val.int 80)] = false ∧
    (compare_and_decide [("disease_name", Val.str "rust"), ("confidence", Val.int 80)]
        [("error", Val.str "timeout")]).result_source = "cnn" :=
  ⟨by decide,
    ((C9_dual_evaluation_decision
        [("disease_name", Val.str "rust"), ("confidence", Val.int 80)]
        [("error", Val.str "timeout")]).1 (by decide)).1⟩

/-! ## Workflow-state helpers

The `workflow_state` module itself is not under `src/` (only its callers
and the `from ..workflow_state import ...` declarations are), so these
helpers are modelled from the spec. -/

/-- Modelled from the spec: `workflow_state.add_message_to_state` is missing
from src.  Spec section 3.1: the conversation log is an ordered sequence of
`{role, content, timestamp}` records, appended in insertion order;
timestamps are omitted because no claim observes them. -/
def add_message_to_state (state : Dict) (role content : String) : Dict :=
  aset state "messages"
    (Val.arr (get_messages state ++
      [Val.obj [("role", Val.str role), ("content", Val.str content)]]))

/-- Modelled from the spec: `workflow_state.set_error` is missing from src.
Spec sections 3.1 and 7: nodes record a failure by storing the error text in
the `error_message` state field. -/
def set_error (state : Dict) (message : Val) : Dict :=
  aset state "error_message" message

/-- Modelled from the spec: `workflow_state.clear_error` is missing from
src.  Spec invariant I4: `retry_count` increases monotonically until
`clear_error` resets it to zero; section 4.2.4: on success any prior
`error_message` is cleared. -/
def clear_error (state : Dict) : Dict :=
  aset (aset state "error_message" Val.null) "retry_count" (Val.int 0)

/-- Modelled from the spec: `workflow_state.update_state_node` is missing
from src (called by `BaseNode.update_node_state`, base_node.py line 56).
Node contract section 4.2: a node MUST set `current_node` to its own name
at entry; `previous_node` tracks the node it came from (section 3.1). -/
def update_state_node (state : Dict) (node_name : String) : Dict :=
  aset (aset state "previous_node" ((aget state "current_node").getD Val.null))
    "current_node" (Val.str node_name)

theorem aget_update_state_node (state : Dict) (node_name k : String)
    (h1 : k ≠ "previous_node") (h2 : k ≠ "current_node") :
    aget (update_state_node state node_name) k = aget state k := by
  unfold update_state_node
  rw [aget_aset_ne _ _ _ _ h2, aget_aset_ne _ _ _ _ h1]

/-! ## Insurance node

Embedding of `src/fsm_agent/core/nodes/insurance_node.py`.  The regex
extraction `_extract_from_message` (lines 221-284) and the LLM action
disambiguation `_determine_insurance_action_with_llm` (lines 320-455,
including its keyword fallback) are external or formatting-heavy
computations abstracted as the `extracted` and `llm_action` arguments; the
insurance MCP tool call is abstracted as the `tool_result` argument; the
user-facing response formatting of `_provide_insurance_response`
(lines 537-607) is abstracted as the `response_message` argument. -/

/-- Python `a or b`: the first operand when truthy, else the second. -/
def pyOr (a b : Val) : Val :=
  if a.truthy then a else b

/-- `_extract_insurance_context` (lines 190-219): seed the context from the
state fields, merge the message-extracted values over it, default the
farmer name, and drop `None` values except for `disease`. -/
def extract_insurance_context (state extracted : Dict) : Dict :=
  let context : Dict :=
    [("disease", (aget state "disease_name").getD Val.null),
     ("crop", pyOr ((aget state "plant_type").getD Val.null)
       ((aget state "crop").getD Val.null)),
     ("state", pyOr ((aget state "location").getD Val.null)
       ((aget state "state").getD Val.null)),
     ("farmer_name", (aget state "farmer_name").getD Val.null),
     ("area_hectare", (aget state "area_hectare").getD Val.null)]
  let context := aupdate context extracted
  let context :=
    if !truthyKey context "farmer_name" then
      aset context "farmer_name" (Val.str "Farmer")
    else context
  context.filter (fun kv => kv.1 == "disease" || !Val.beq kv.2 Val.null)

/-- `_check_required_context` (lines 286-296). -/
def check_required_context (context : Dict) : List String :=
  ["state", "area_hectare", "crop"].filter (fun f => !truthyKey context f)

/-- The `field_prompts.get(field, field)` mapping of lines 300-304. -/
def field_prompt (f : String) : String :=
  if f == "state" then "your state or location"
  else if f == "area_hectare" then "the area of your farm in hectares"
  else if f == "crop" then "the type of crop you are growing"
  else f

/-- `_prompt_for_missing_info` (lines 298-318): build the prompt from the
missing fields and append it as an assistant message with immediate
streaming. -/
def prompt_for_missing_info (state : Dict) (missing : List String) : Dict :=
  aset (add_message_to_state state "assistant"
    ("🏦 " ++
      (if missing.length == 1 then
        "To help you with crop insurance, I need to know " ++
          field_prompt (missing.headD "") ++
          ". Could you please provide this information?"
      else
        "To help you with crop insurance, I need the following information: " ++
          (if decide (missing.length > 2) then
            String.intercalate ", " ((missing.map field_prompt).dropLast) ++ ", and " ++
              (missing.map field_prompt).getLastD ""
          else
            String.intercalate " and " (missing.map field_prompt)) ++
          ". Could you please provide these details?")))
    "stream_immediately" (Val.bool true)

/-- `_determine_insurance_action` (lines 457-478): explicit intent flags
first, otherwise defer to LLM analysis.  `state.get("user_intent", {})` is
read as an empty dict when absent or not a dict. -/
def determine_insurance_action (state : Dict) : String :=
  if truthyKey (match aget state "user_intent" with
      | some (Val.obj d) => d
      | _ => []) "wants_insurance_premium" then "calculate_premium"
  else if truthyKey (match aget state "user_intent" with
      | some (Val.obj d) => d
      | _ => []) "wants_insurance_companies" then "get_companies"
  else if truthyKey (match aget state "user_intent" with
      | some (Val.obj d) => d
      | _ => []) "wants_insurance_recommendation" then "recommend"
  else if truthyKey (match aget state "user_intent" with
      | some (Val.obj d) => d
      | _ => []) "wants_insurance_purchase" then "generate_certificate"
  else "llm_analysis_needed"

/-- The action finally executed (lines 145-151): the explicit-intent result,
or the LLM analysis result (abstracted as `llm_action`) when
`_determine_insurance_action` defers. -/
def insurance_effective_action (state : Dict) (llm_action : String) : String :=
  if determine_insurance_action state == "llm_analysis_needed" then llm_action
  else determine_insurance_action state

/-- The action-specific storage of `_store_insurance_results`
(lines 522-529). -/
def store_action_result (state : Dict) (action : String) (result : Dict) : Dict :=
  if action == "calculate_premium" then
    aset state "insurance_premium_details" (Val.obj result)
  else if action == "get_companies" then
    aset state "insurance_companies" (Val.arr [Val.obj result])
  else if action == "recommend" then
    aset state "insurance_recommendations" (Val.obj result)
  else if action == "generate_certificate" then
    aset state "insurance_certificate" (Val.obj result)
  else state

/-- Lines 532-533 of `_store_insurance_results`. -/
def store_farmer_name (state result : Dict) : Dict :=
  if truthyKey result "farmer_name" then
    aset state "farmer_name" ((aget result "farmer_name").getD Val.null)
  else state

/-- Lines 534-535 of `_store_insurance_results`. -/
def store_farmer_area (state result : Dict) : Dict :=
  if truthyKey result "area_hectare" then
    aset state "area_hectare" ((aget result "area_hectare").getD Val.null)
  else state

/-- `_store_insurance_results` (lines 520-535). -/
def store_insurance_results (state : Dict) (action : String) (result : Dict) : Dict :=
  store_farmer_area (store_farmer_name (store_action_result state action result) result)
    result

/-- The state effect of `_provide_insurance_response` (lines 537-607):
append one assistant message (its action- and result-dependent formatting
is abstracted as `response_message`) and stream it immediately. -/
def provide_insurance_response (state : Dict) (response_message : String) : Dict :=
  aset (add_message_to_state state "assistant" response_message)
    "stream_immediately" (Val.bool true)

/-- The message of lines 494-498, appended before the tool call. -/
def processing_message : String :=
  "🏦 Processing your insurance request... This may take a moment."

/-- The rephrase prompt of lines 111-112. -/
def rephrase_message : String :=
  "🏦 I'm having trouble processing your request. Could you please rephrase what you'd like to do with insurance?"

/-- The success path of `InsuranceNode.execute` (lines 156-173):
`clear_error`, store results, respond, clear `requires_user_input`, then
`_determine_next_action` (lines 609-623: mark
`insurance_operation_completed`, record the action, reset the count) and
route to `completed`. -/
def insurance_success_update (state : Dict) (action : String) (result : Dict)
    (response_message : String) : Dict :=
  aset (aset (aset (aset (aset (provide_insurance_response
    (store_insurance_results (clear_error state) action result) response_message)
    "requires_user_input" (Val.bool false))
    "insurance_operation_completed" (Val.bool true))
    "last_completed_insurance_action" (Val.str action))
    "insurance_action_count" (Val.int 0))
    "next_action" (Val.str "completed")

/-- The `state.get("insurance_action_count", 0)` read of line 103; the node
itself only ever stores integers there. -/
def insurance_count (state : Dict) : Int :=
  match aget state "insurance_action_count" with
  | some (Val.int n) => n
  | _ => 0

/-- The body of `InsuranceNode.execute` after the loop guard
(lines 123-188): update the tracking fields, extract and validate the
insurance context (prompting for missing fields, lines 137-142), determine
the action, apply the tool-call state effect of
`_execute_insurance_operation` (lines 494-499), then take the success path
or the error path (lines 174-179) according to the tool result. -/
def insurance_execute_body (state : Dict) (user_message : Val) (count : Int)
    (extracted : Dict) (llm_action : String) (tool_result : Dict)
    (response_message : String) : Dict :=
  let state := aset (aset state "last_insurance_message" user_message)
    "insurance_action_count" (Val.int count)
  let context := extract_insurance_context state extracted
  let state := aset state "insurance_context" (Val.obj context)
  if !(check_required_context context).isEmpty then
    aset (aset (prompt_for_missing_info state (check_required_context context))
      "next_action" (Val.str "followup")) "requires_user_input" (Val.bool true)
  else
    let action := insurance_effective_action state llm_action
    let state := aset (add_message_to_state state "assistant" processing_message)
      "stream_immediately" (Val.bool true)
    if !tool_result.isEmpty && !truthyKey tool_result "error" then
      insurance_success_update state action tool_result response_message
    else
      aset (set_error state ((aget tool_result "error").getD
        (Val.str "Unknown insurance operation error"))) "next_action" (Val.str "error")

/-- `InsuranceNode.execute` (lines 85-188): node-entry state update, then
the infinite-loop guard of lines 101-125 (three identical consecutive
messages trigger a rephrase prompt and a counter reset), then the body. -/
def insurance_execute (state : Dict) (extracted : Dict) (llm_action : String)
    (tool_result : Dict) (response_message : String) : Dict :=
  let state := update_state_node state "insurance"
  let user_message := (aget state "user_message").getD (Val.str "")
  if Val.beq ((aget state "last_insurance_message").getD Val.null) user_message then
    if decide (insurance_count state + 1 ≥ 3) then
      aset (aset (aset (aset (aset
        (add_message_to_state state "assistant" rephrase_message)
        "stream_immediately" (Val.bool true))
        "next_action" (Val.str "await_user_input"))
        "requires_user_input" (Val.bool true))
        "insurance_action_count" (Val.int 0))
        "last_insurance_message" Val.null
    else
      insurance_execute_body state user_message (insurance_count state + 1) extracted
        llm_action tool_result response_message
  else
    insurance_execute_body state user_message 1 extracted llm_action tool_result
      response_message

/-! ## Claim C7: insurance loop guard -/

theorem insurance_count_update (state : Dict) (node_name : String) :
    insurance_count (update_state_node state node_name) = insurance_count state := by
  unfold insurance_count
  rw [aget_update_state_node state node_name _ (by decide) (by decide)]

theorem get_messages_update (state : Dict) (node_name : String) :
    get_messages (update_state_node state node_name) = get_messages state := by
  unfold get_messages
  rw [aget_update_state_node state node_name _ (by decide) (by decide)]

/-- C7: whenever the insurance node receives the same `user_message` for the
third consecutive time (`last_insurance_message` equals the message and the
stored count is at least 2, so the incremented count reaches 3), it appends
the rephrase prompt as an assistant message, sets `next_action` to
`await_user_input` with `requires_user_input` true, and resets the loop
counters; the final conjunct shows the outcome is independent of the
message-extraction, LLM-action and insurance-tool arguments, i.e. the
insurance tool is never consulted. -/
theorem C7_insurance_loop_guard (state : Dict) (extracted : Dict) (llm_action : String)
    (tool_result : Dict) (response_message : String)
    (h1 : Val.beq ((aget state "last_insurance_message").getD Val.null)
      ((aget state "user_message").getD (Val.str "")) = true)
    (h2 : 2 ≤ insurance_count state) :
    aget (insurance_execute state extracted llm_action tool_result response_message)
      "next_action" = some (Val.str "await_user_input") ∧
    aget (insurance_execute state extracted llm_action tool_result response_message)
      "requires_user_input" = some (Val.bool true) ∧
    aget (insurance_execute state extracted llm_action tool_result response_message)
      "insurance_action_count" = some (Val.int 0) ∧
    aget (insurance_execute state extracted llm_action tool_result response_message)
      "last_insurance_message" = some Val.null ∧
    aget (insurance_execute state extracted llm_action tool_result response_message)
      "messages" = some (Val.arr (get_messages state ++
        [Val.obj [("role", Val.str "assistant"),
          ("content", Val.str rephrase_message)]])) ∧
    (∀ (e : Dict) (l : String) (t : Dict) (r : String),
      insurance_execute state e l t r =
        insurance_execute state extracted llm_action tool_result response_message) := by
  have hguard : ∀ (e : Dict) (l : String) (t : Dict) (r : String),
      insurance_execute state e l t r =
        aset (aset (aset (aset (aset
          (add_message_to_state (update_state_node state "insurance") "assistant"
            rephrase_message)
          "stream_immediately" (Val.bool true))
          "next_action" (Val.str "await_user_input"))
          "requires_user_input" (Val.bool true))
          "insurance_action_count" (Val.int 0))
          "last_insurance_message" Val.null := by
    intro e l t r
    simp only [insurance_execute]
    rw [aget_update_state_node state "insurance" "last_insurance_message"
        (by decide) (by decide),
      aget_update_state_node state "insurance" "user_message" (by decide) (by decide),
      insurance_count_update state "insurance", h1]
    have hd : decide (insurance_count state + 1 ≥ 3) = true :=
      decide_eq_true (by omega)
    rw [hd]
    rfl
  rw [hguard extracted llm_action tool_result response_message]
  refine ⟨?_, ?_, ?_, ?_, ?_, ?_⟩
  · rw [aget_aset_ne _ _ _ _ (by decide), aget_aset_ne _ _ _ _ (by decide),
      aget_aset_ne _ _ _ _ (by decide), aget_aset_self]
  · rw [aget_aset_ne _ _ _ _ (by decide), aget_aset_ne _ _ _ _ (by decide),
      aget_aset_self]
  · rw [aget_aset_ne _ _ _ _ (by decide), aget_aset_self]
  · rw [aget_aset_self]
  · rw [aget_aset_ne _ _ _ _ (by decide), aget_aset_ne _ _ _ _ (by decide),
      aget_aset_ne _ _ _ _ (by decide), aget_aset_ne _ _ _ _ (by decide),
      aget_aset_ne _ _ _ _ (by decide)]
    unfold add_message_to_state
    rw [aget_aset_self, get_messages_update state "insurance"]
  · intro e l t r
    rw [hguard e l t r]

/-- Witness for C7 at a concrete state seeing the same message the third
consecutive time. -/
theorem C7_witness :
    (Val.beq ((aget [("session_id", Val.str "s"),
        ("user_message", Val.str "premium please"),
        ("last_insurance_message", Val.str "premium please"),
        ("insurance_action_count", Val.int 2)] "last_insurance_message").getD Val.null)
      ((aget [("session_id", Val.str "s"),
        ("user_message", Val.str "premium please"),
        ("last_insurance_message", Val.str "premium please"),
        ("insurance_action_count", Val.int 2)] "user_message").getD (Val.str "")) = true ∧
      2 ≤ insurance_count [("session_id", Val.str "s"),
        ("user_message", Val.str "premium please"),
        ("last_insurance_message", Val.str "premium please"),
        ("insurance_action_count", Val.int 2)]) ∧
    aget (insurance_execute [("session_id", Val.str "s"),
        ("user_message", Val.str "premium please"),
        ("last_insurance_message", Val.str "premium please"),
        ("insurance_action_count", Val.int 2)] [] "calculate_premium" [] "resp")
      "next_action" = some (Val.str "await_user_input") :=
  ⟨⟨by decide, by decide⟩,
    (C7_insurance_loop_guard [("session_id", Val.str "s"),
        ("user_message", Val.str "premium please"),
        ("last_insurance_message", Val.str "premium please"),
        ("insurance_action_count", Val.int 2)] [] "calculate_premium" [] "resp"
      (by decide) (by decide)).1⟩

/-! ## Claim C6: insurance success path -/

theorem extract_insurance_context_congr (s1 s2 : Dict) (extracted : Dict)
    (h : ∀ k, k ∈ (["disease_name", "plant_type", "crop", "location", "state",
      "farmer_name", "area_hectare"] : List String) → aget s1 k = aget s2 k) :
    extract_insurance_context s1 extracted = extract_insurance_context s2 extracted := by
  unfold extract_insurance_context
  rw [h "disease_name" (by decide), h "plant_type" (by decide), h "crop" (by decide),
    h "location" (by decide), h "state" (by decide), h "farmer_name" (by decide),
    h "area_hectare" (by decide)]

theorem extract_context_ignores_tracking (state : Dict) (um c : Val) (extracted : Dict) :
    extract_insurance_context (aset (aset state "last_insurance_message" um)
      "insurance_action_count" c) extracted =
      extract_insurance_context state extracted :=
  extract_insurance_context_congr _ _ extracted (by
    intro k hk
    fin_cases hk <;>
      rw [aget_aset_ne _ _ _ _ (by decide), aget_aset_ne _ _ _ _ (by decide)])

theorem extract_context_ignores_update (state : Dict) (node_name : String)
    (extracted : Dict) :
    extract_insurance_context (update_state_node state node_name) extracted =
      extract_insurance_context state extracted :=
  extract_insurance_context_congr _ _ extracted (by
    intro k hk
    fin_cases hk <;> rw [aget_update_state_node _ _ _ (by decide) (by decide)])

theorem determine_action_congr (s1 s2 : Dict)
    (h : aget s1 "user_intent" = aget s2 "user_intent") :
    determine_insurance_action s1 = determine_insurance_action s2 := by
  unfold determine_insurance_action
  rw [h]

theorem effective_action_ignores_tracking (state : Dict) (um c v : Val)
    (llm_action : String) :
    insurance_effective_action (aset (aset (aset state "last_insurance_message" um)
      "insurance_action_count" c) "insurance_context" v) llm_action =
      insurance_effective_action state llm_action := by
  unfold insurance_effective_action
  rw [determine_action_congr _ state (by
    rw [aget_aset_ne _ _ _ _ (by decide), aget_aset_ne _ _ _ _ (by decide),
      aget_aset_ne _ _ _ _ (by decide)])]

theorem effective_action_ignores_update (state : Dict) (node_name : String)
    (llm_action : String) :
    insurance_effective_action (update_state_node state node_name) llm_action =
      insurance_effective_action state llm_action := by
  unfold insurance_effective_action
  rw [determine_action_congr _ state (aget_update_state_node _ _ _ (by decide) (by decide))]

theorem aget_add_message_ne (state : Dict) (role content k : String)
    (h : k ≠ "messages") :
    aget (add_message_to_state state role content) k = aget state k := by
  unfold add_message_to_state
  exact aget_aset_ne _ _ _ _ h

theorem aget_provide_ne (state : Dict) (response_message : String) (k : String)
    (h1 : k ≠ "messages") (h2 : k ≠ "stream_immediately") :
    aget (provide_insurance_response state response_message) k = aget state k := by
  unfold provide_insurance_response
  rw [aget_aset_ne _ _ _ _ h2]
  exact aget_add_message_ne _ _ _ _ h1

theorem aget_store_action_ne (state : Dict) (action : String) (result : Dict) (k : String)
    (h1 : k ≠ "insurance_premium_details") (h2 : k ≠ "insurance_companies")
    (h3 : k ≠ "insurance_recommendations") (h4 : k ≠ "insurance_certificate") :
    aget (store_action_result state action result) k = aget state k := by
  unfold store_action_result
  split
  · exact aget_aset_ne _ _ _ _ h1
  · split
    · exact aget_aset_ne _ _ _ _ h2
    · split
      · exact aget_aset_ne _ _ _ _ h3
      · split
        · exact aget_aset_ne _ _ _ _ h4
        · rfl

theorem aget_store_farmer_name_ne (state result : Dict) (k : String)
    (h : k ≠ "farmer_name") :
    aget (store_farmer_name state result) k = aget state k := by
  unfold store_farmer_name
  split
  · exact aget_aset_ne _ _ _ _ h
  · rfl

theorem aget_store_farmer_area_ne (state result : Dict) (k : String)
    (h : k ≠ "area_hectare") :
    aget (store_farmer_area state result) k = aget state k := by
  unfold store_farmer_area
  split
  · exact aget_aset_ne _ _ _ _ h
  · rfl

theorem aget_store_results_ne (state : Dict) (action : String) (result : Dict)
    (k : String) (h1 : k ≠ "insurance_premium_details") (h2 : k ≠ "insurance_companies")
    (h3 : k ≠ "insurance_recommendations") (h4 : k ≠ "insurance_certificate")
    (h5 : k ≠ "farmer_name") (h6 : k ≠ "area_hectare") :
    aget (store_insurance_results state action result) k = aget state k := by
  unfold store_insurance_results
  rw [aget_store_farmer_area_ne _ _ _ h6, aget_store_farmer_name_ne _ _ _ h5]
  exact aget_store_action_ne _ _ _ _ h1 h2 h3 h4

theorem aget_clear_error_msg (state : Dict) :
    aget (clear_error state) "error_message" = some Val.null := by
  unfold clear_error
  rw [aget_aset_ne _ _ _ _ (by decide), aget_aset_self]

theorem insurance_success_update_error_message (state : Dict) (action : String)
    (result : Dict) (response_message : String) :
    aget (insurance_success_update state action result response_message)
      "error_message" = some Val.null := by
  unfold insurance_success_update
  rw [aget_aset_ne _ _ _ _ (by decide), aget_aset_ne _ _ _ _ (by decide),
    aget_aset_ne _ _ _ _ (by decide), aget_aset_ne _ _ _ _ (by decide),
    aget_aset_ne _ _ _ _ (by decide),
    aget_provide_ne _ _ _ (by decide) (by decide),
    aget_store_results_ne _ _ _ _ (by decide) (by decide) (by decide) (by decide)
      (by decide) (by decide),
    aget_clear_error_msg]

theorem insurance_success_update_completed (state : Dict) (action : String)
    (result : Dict) (response_message : String) :
    aget (insurance_success_update state action result response_message)
      "insurance_operation_completed" = some (Val.bool true) := by
  unfold insurance_success_update
  rw [aget_aset_ne _ _ _ _ (by decide), aget_aset_ne _ _ _ _ (by decide),
    aget_aset_ne _ _ _ _ (by decide), aget_aset_self]

theorem insurance_success_update_next (state : Dict) (action : String)
    (result : Dict) (response_message : String) :
    aget (insurance_success_update state action result response_message)
      "next_action" = some (Val.str "completed") := by
  unfold insurance_success_update
  rw [aget_aset_self]

theorem store_action_result_premium (state : Dict) (result : Dict) :
    aget (store_action_result state "calculate_premium" result)
      "insurance_premium_details" = some (Val.obj result) := by
  unfold store_action_result
  rw [if_pos (by decide)]
  exact aget_aset_self _ _ _

theorem store_action_result_companies (state : Dict) (result : Dict) :
    aget (store_action_result state "get_companies" result)
      "insurance_companies" = some (Val.arr [Val.obj result]) := by
  unfold store_action_result
  rw [if_neg (by decide), if_pos (by decide)]
  exact aget_aset_self _ _ _

theorem store_action_result_recommend (state : Dict) (result : Dict) :
    aget (store_action_result state "recommend" result)
      "insurance_recommendations" = some (Val.obj result) := by
  unfold store_action_result
  rw [if_neg (by decide), if_neg (by decide), if_pos (by decide)]
  exact aget_aset_self _ _ _

theorem store_action_result_certificate (state : Dict) (result : Dict) :
    aget (store_action_result state "generate_certificate" result)
      "insurance_certificate" = some (Val.obj result) := by
  unfold store_action_result
  rw [if_neg (by decide), if_neg (by decide), if_neg (by decide), if_pos (by decide)]
  exact aget_aset_self _ _ _

theorem insurance_success_update_premium (state : Dict) (result : Dict)
    (response_message : String) :
    aget (insurance_success_update state "calculate_premium" result response_message)
      "insurance_premium_details" = some (Val.obj result) := by
  unfold insurance_success_update
  rw [aget_aset_ne _ _ _ _ (by decide), aget_aset_ne _ _ _ _ (by decide),
    aget_aset_ne _ _ _ _ (by decide), aget_aset_ne _ _ _ _ (by decide),
    aget_aset_ne _ _ _ _ (by decide),
    aget_provide_ne _ _ _ (by decide) (by decide)]
  unfold store_insurance_results
  rw [aget_store_farmer_area_ne _ _ _ (by decide),
    aget_store_farmer_name_ne _ _ _ (by decide)]
  exact store_action_result_premium _ _

theorem insurance_success_update_companies (state : Dict) (result : Dict)
    (response_message : String) :
    aget (insurance_success_update state "get_companies" result response_message)
      "insurance_companies" = some (Val.arr [Val.obj result]) := by
  unfold insurance_success_update
  rw [aget_aset_ne _ _ _ _ (by decide), aget_aset_ne _ _ _ _ (by decide),
    aget_aset_ne _ _ _ _ (by decide), aget_aset_ne _ _ _ _ (by decide),
    aget_aset_ne _ _ _ _ (by decide),
    aget_provide_ne _ _ _ (by decide) (by decide)]
  unfold store_insurance_results
  rw [aget_store_farmer_area_ne _ _ _ (by decide),
    aget_store_farmer_name_ne _ _ _ (by decide)]
  exact store_action_result_companies _ _

theorem insurance_success_update_recommend (state : Dict) (result : Dict)
    (response_message : String) :
    aget (insurance_success_update state "recommend" result response_message)
      "insurance_recommendations" = some (Val.obj result) := by
  unfold insurance_success_update
  rw [aget_aset_ne _ _ _ _ (by decide), aget_aset_ne _ _ _ _ (by decide),
    aget_aset_ne _ _ _ _ (by decide), aget_aset_ne _ _ _ _ (by decide),
    aget_aset_ne _ _ _ _ (by decide),
    aget_provide_ne _ _ _ (by decide) (by decide)]
  unfold store_insurance_results
  rw [aget_store_farmer_area_ne _ _ _ (by decide),
    aget_store_farmer_name_ne _ _ _ (by decide)]
  exact store_action_result_recommend _ _

theorem insurance_success_update_certificate (state : Dict) (result : Dict)
    (response_message : String) :
    aget (insurance_success_update state "generate_certificate" result response_message)
      "insurance_certificate" = some (Val.obj result) := by
  unfold insurance_success_update
  rw [aget_aset_ne _ _ _ _ (by decide), aget_aset_ne _ _ _ _ (by decide),
    aget_aset_ne _ _ _ _ (by decide), aget_aset_ne _ _ _ _ (by decide),
    aget_aset_ne _ _ _ _ (by decide),
    aget_provide_ne _ _ _ (by decide) (by decide)]
  unfold store_insurance_results
  rw [aget_store_farmer_area_ne _ _ _ (by decide),
    aget_store_farmer_name_ne _ _ _ (by decide)]
  exact store_action_result_certificate _ _

/-- The body of the insurance node, on a non-empty tool result with no
error field, reduces to the success update. -/
theorem insurance_execute_body_success_eq (state : Dict) (user_message : Val)
    (count : Int) (extracted : Dict) (llm_action : String) (tool_result : Dict)
    (response_message : String)
    (hmiss : check_required_context (extract_insurance_context state extracted) = [])
    (hres1 : tool_result ≠ []) (hres2 : aget tool_result "error" = none) :
    insurance_execute_body state user_message count extracted llm_action tool_result
        response_message =
      insurance_success_update
        (aset (add_message_to_state (aset (aset (aset state
          "last_insurance_message" user_message) "insurance_action_count"
          (Val.int count)) "insurance_context"
          (Val.obj (extract_insurance_context state extracted)))
          "assistant" processing_message) "stream_immediately" (Val.bool true))
        (insurance_effective_action state llm_action) tool_result response_message := by
  have he1 : tool_result.isEmpty = false := by
    cases tool_result with
    | nil => exact absurd rfl hres1
    | cons h t => rfl
  have he2 : truthyKey tool_result "error" = false := by
    unfold truthyKey
    rw [hres2]
  simp only [insurance_execute_body]
  rw [extract_context_ignores_tracking state user_message (Val.int count) extracted,
    hmiss]
  simp only [List.isEmpty_nil, Bool.not_true]
  rw [if_neg (by decide)]
  rw [effective_action_ignores_tracking state user_message (Val.int count)
    (Val.obj (extract_insurance_context state extracted)) llm_action]
  rw [he1, he2]
  simp only [Bool.not_false, Bool.and_self]
  rw [if_pos trivial]

/-- C6 (amended): whenever the loop guard does not fire and the context is
complete, and the insurance tool call returns a NON-EMPTY result with no
error field, the insurance node clears any prior `error_message`
(`clear_error`), stores the result under the action-specific state field
(`insurance_premium_details` for `calculate_premium`,
`insurance_companies` for `get_companies`, `insurance_recommendations` for
`recommend`, `insurance_certificate` for `generate_certificate`), sets
`insurance_operation_completed` to true, and sets `next_action` to
`"completed"`. -/
theorem C6_insurance_success_clears_error_and_stores (state : Dict)
    (extracted : Dict) (llm_action : String) (tool_result : Dict)
    (response_message : String)
    (hguard : Val.beq ((aget state "last_insurance_message").getD Val.null)
        ((aget state "user_message").getD (Val.str "")) = false ∨
      insurance_count state + 1 < 3)
    (hmiss : check_required_context (extract_insurance_context state extracted) = [])
    (hres1 : tool_result ≠ []) (hres2 : aget tool_result "error" = none) :
    aget (insurance_execute state extracted llm_action tool_result response_message)
      "error_message" = some Val.null ∧
    aget (insurance_execute state extracted llm_action tool_result response_message)
      "insurance_operation_completed" = some (Val.bool true) ∧
    aget (insurance_execute state extracted llm_action tool_result response_message)
      "next_action" = some (Val.str "completed") ∧
    (insurance_effective_action state llm_action = "calculate_premium" →
      aget (insurance_execute state extracted llm_action tool_result response_message)
        "insurance_premium_details" = some (Val.obj tool_result)) ∧
    (insurance_effective_action state llm_action = "get_companies" →
      aget (insurance_execute state extracted llm_action tool_result response_message)
        "insurance_companies" = some (Val.arr [Val.obj tool_result])) ∧
    (insurance_effective_action state llm_action = "recommend" →
      aget (insurance_execute state extracted llm_action tool_result response_message)
        "insurance_recommendations" = some (Val.obj tool_result)) ∧
    (insurance_effective_action state llm_action = "generate_certificate" →
      aget (insurance_execute state extracted llm_action tool_result response_message)
        "insurance_certificate" = some (Val.obj tool_result)) := by
  have hbody : ∃ cnt : Int,
      insurance_execute state extracted llm_action tool_result response_message =
        insurance_execute_body (update_state_node state "insurance")
          ((aget state "user_message").getD (Val.str "")) cnt extracted llm_action
          tool_result response_message := by
    simp only [insurance_execute]
    rw [aget_update_state_node state "insurance" "last_insurance_message"
        (by decide) (by decide),
      aget_update_state_node state "insurance" "user_message" (by decide) (by decide),
      insurance_count_update state "insurance"]
    by_cases hb : Val.beq ((aget state "last_insurance_message").getD Val.null)
        ((aget state "user_message").getD (Val.str "")) = true
    · rw [hb]
      rcases hguard with hg | hg
      · rw [hb] at hg
        exact Bool.noConfusion hg
      · have hd : decide (insurance_count state + 1 ≥ 3) = false :=
          decide_eq_false (by omega)
        rw [hd]
        rw [if_pos rfl, if_neg (by decide)]
        exact ⟨insurance_count state + 1, rfl⟩
    · have hb' : Val.beq ((aget state "last_insurance_message").getD Val.null)
          ((aget state "user_message").getD (Val.str "")) = false :=
        Bool.eq_false_iff.mpr hb
      rw [hb']
      rw [if_neg (by decide)]
      exact ⟨1, rfl⟩
  obtain ⟨cnt, hb⟩ := hbody
  have hmiss' : check_required_context (extract_insurance_context
      (update_state_node state "insurance") extracted) = [] := by
    rw [extract_context_ignores_update]
    exact hmiss
  have heq := insurance_execute_body_success_eq (update_state_node state "insurance")
    ((aget state "user_message").getD (Val.str "")) cnt extracted llm_action
    tool_result response_message hmiss' hres1 hres2
  rw [hb, heq, effective_action_ignores_update state "insurance" llm_action]
  refine ⟨insurance_success_update_error_message _ _ _ _,
    insurance_success_update_completed _ _ _ _,
    insurance_success_update_next _ _ _ _, ?_, ?_, ?_, ?_⟩
  · intro h
    rw [h]
    exact insurance_success_update_premium _ _ _
  · intro h
    rw [h]
    exact insurance_success_update_companies _ _ _
  · intro h
    rw [h]
    exact insurance_success_update_recommend _ _ _
  · intro h
    rw [h]
    exact insurance_success_update_certificate _ _ _

set_option maxRecDepth 8000 in
/-- Counterexample to C6 as stated: an empty tool result has no error
field, yet the node takes the error path (`if result and not
result.get("error")` on line 156 is false for a falsy result), setting
`error_message` to the fallback text and `next_action` to `"error"`
instead of clearing the error and completing. -/
theorem C6_counterexample :
    aget ([] : Dict) "error" = none ∧
    aget (insurance_execute
        [("session_id", Val.str "s"), ("user_message", Val.str "insurance please"),
         ("plant_type", Val.str "rice"), ("location", Val.str "karnataka"),
         ("area_hectare", Val.int 5),
         ("user_intent", Val.obj [("wants_insurance_premium", Val.bool true)])]
        [] "calculate_premium" [] "resp") "next_action" = some (Val.str "error") ∧
    aget (insurance_execute
        [("session_id", Val.str "s"), ("user_message", Val.str "insurance please"),
         ("plant_type", Val.str "rice"), ("location", Val.str "karnataka"),
         ("area_hectare", Val.int 5),
         ("user_intent", Val.obj [("wants_insurance_premium", Val.bool true)])]
        [] "calculate_premium" [] "resp") "error_message" =
      some (Val.str "Unknown insurance operation error") ∧
    aget (insurance_execute
        [("session_id", Val.str "s"), ("user_message", Val.str "insurance please"),
         ("plant_type", Val.str "rice"), ("location", Val.str "karnataka"),
         ("area_hectare", Val.int 5),
         ("user_intent", Val.obj [("wants_insurance_premium", Val.bool true)])]
        [] "calculate_premium" [] "resp") "insurance_operation_completed" = none :=
  ⟨by decide, by decide, by decide, by decide⟩

set_option maxRecDepth 8000 in
/-- Witness for the amended C6 at a concrete state and a concrete
successful tool result. -/
theorem C6_witness :
    aget (insurance_execute
        [("session_id", Val.str "s"), ("user_message", Val.str "insurance please"),
         ("plant_type", Val.str "rice"), ("location", Val.str "karnataka"),
         ("area_hectare", Val.int 5),
         ("user_intent", Val.obj [("wants_insurance_premium", Val.bool true)])]
        [] "x" [("premium_details", Val.str "Rs 1000")] "resp")
      "error_message" = some Val.null ∧
    aget (insurance_execute
        [("session_id", Val.str "s"), ("user_message", Val.str "insurance please"),
         ("plant_type", Val.str "rice"), ("location", Val.str "karnataka"),
         ("area_hectare", Val.int 5),
         ("user_intent", Val.obj [("wants_insurance_premium", Val.bool true)])]
        [] "x" [("premium_details", Val.str "Rs 1000")] "resp")
      "next_action" = some (Val.str "completed") ∧
    aget (insurance_execute
        [("session_id", Val.str "s"), ("user_message", Val.str "insurance please"),
         ("plant_type", Val.str "rice"), ("location", Val.str "karnataka"),
         ("area_hectare", Val.int 5),
         ("user_intent", Val.obj [("wants_insurance_premium", Val.bool true)])]
        [] "x" [("premium_details", Val.str "Rs 1000")] "resp")
      "insurance_premium_details" =
        some (Val.obj [("premium_details", Val.str "Rs 1000")]) :=
  ⟨(C6_insurance_success_clears_error_and_stores
      [("session_id", Val.str "s"), ("user_message", Val.str "insurance please"),
       ("plant_type", Val.str "rice"), ("location", Val.str "karnataka"),
       ("area_hectare", Val.int 5),
       ("user_intent", Val.obj [("wants_insurance_premium", Val.bool true)])]
      [] "x" [("premium_details", Val.str "Rs 1000")] "resp"
      (Or.inl (by decide)) (by decide) (by decide) (by decide)).1,
   (C6_insurance_success_clears_error_and_stores
      [("session_id", Val.str "s"), ("user_message", Val.str "insurance please"),
       ("plant_type", Val.str "rice"), ("location", Val.str "karnataka"),
       ("area_hectare", Val.int 5),
       ("user_intent", Val.obj [("wants_insurance_premium", Val.bool true)])]
      [] "x" [("premium_details", Val.str "Rs 1000")] "resp"
      (Or.inl (by decide)) (by decide) (by decide) (by decide)).2.2.1,
   (C6_insurance_success_clears_error_and_stores
      [("session_id", Val.str "s"), ("user_message", Val.str "insurance please"),
       ("plant_type", Val.str "rice"), ("location", Val.str "karnataka"),
       ("area_hectare", Val.int 5),
       ("user_intent", Val.obj [("wants_insurance_premium", Val.bool true)])]
      [] "x" [("premium_details", Val.str "Rs 1000")] "resp"
      (Or.inl (by decide)) (by decide) (by decide) (by decide)).2.2.2.1 (by decide)⟩

/-! ## Claim C10: aliasing in the streaming filter

`_filter_chunk_for_streaming` (lines 800-857) copies the chunk only
shallowly (`filtered = chunk.copy()`, line 814): the top-level entry list
is duplicated, but every dict value is shared with the caller.  This is
modelled with an explicit heap: dict values are references (`HVal.ref`)
into a heap of dict objects, primitives are immutable inline values, and
the sub-field deletions of lines 846-849 become a heap update visible to
the caller.  The value-level `filter_chunk_for_streaming` above describes
the same function's return value. -/

/-- A chunk value under the heap model: an immutable primitive or a
reference to a heap-allocated dict, as every Python dict value is. -/
inductive HVal where
  | prim (v : Val) : HVal
  | ref (addr : Nat) : HVal
  deriving Repr, DecidableEq

/-- A dict whose values live under the heap model. -/
abbrev HDict : Type := List (String × HVal)

/-- The heap of shared dict objects, addressed by allocation id. -/
abbrev Heap : Type := List (Nat × HDict)

/-- Truthiness of a heap-model value (a referenced dict is truthy iff
non-empty; a dangling reference cannot arise in the source). -/
def hval_truthy (heap : Heap) : HVal → Bool
  | HVal.prim v => v.truthy
  | HVal.ref a =>
      match aget heap a with
      | some d => !d.isEmpty
      | none => false

/-- Heap-model `d.get(k, default)` truthiness. -/
def htruthyKeyD (heap : Heap) (d : HDict) (k : String) (default : Bool) : Bool :=
  match aget d k with
  | some v => hval_truthy heap v
  | none => default

/-- Heap-model string read with default; non-string values compare unequal
to every string literal, like the default does at the call sites. -/
def hgetStrD (d : HDict) (k : String) (default : String) : String :=
  match aget d k with
  | some (HVal.prim (Val.str s)) => s
  | _ => default

/-- Lines 825-835 under the heap model. -/
def hfilter_assistant (heap : Heap) (chunk f : HDict) : HDict :=
  if (aget f "assistant_response").isSome then
    if !htruthyKeyD heap chunk "stream_in_state_update" false &&
        hgetStrD chunk "response_status" "final" != "state_only" then
      adel f "assistant_response"
    else f
  else f

/-- Steps 1-3 of the filter (lines 816-839) under the heap model; these
delete only from the shallow copy. -/
def hfilter_pre (heap : Heap) (chunk : HDict) : HDict :=
  adel (hfilter_assistant heap chunk
    (adel (adel (adel chunk "user_image") "image") "attention_overlay")) "messages"

/-- `_filter_chunk_for_streaming` under the heap model.  Step 4
(lines 841-851) dereferences a dict-valued `classification_results`,
deletes the verbose sub-fields from the SHARED heap object, and writes the
same reference back into the copy; step 5 removes `last_update_time` from
the copy.  Returns the filtered copy together with the (possibly mutated)
heap. -/
def filter_chunk_for_streaming_heap (heap : Heap) (chunk : HDict) : HDict × Heap :=
  match aget (hfilter_pre heap chunk) "classification_results" with
  | some (HVal.ref a) =>
      match aget heap a with
      | some classification =>
          (adel (aset (hfilter_pre heap chunk) "classification_results" (HVal.ref a))
            "last_update_time",
            aset heap a (adel (adel (adel classification "raw_predictions")
              "plant_context") "attention_overlay"))
      | none => (adel (hfilter_pre heap chunk) "last_update_time", heap)
  | _ => (adel (hfilter_pre heap chunk) "last_update_time", heap)

theorem aget_hfilter_assistant_ne (heap : Heap) (chunk f : HDict) (k : String)
    (h : k ≠ "assistant_response") :
    aget (hfilter_assistant heap chunk f) k = aget f k := by
  unfold hfilter_assistant
  split
  · split
    · exact aget_adel_ne _ _ _ h
    · rfl
  · rfl

theorem aget_hfilter_pre_excluded (heap : Heap) (chunk : HDict) (k : String)
    (hk : k ∈ (["user_image", "image", "attention_overlay", "messages"] : List String)) :
    aget (hfilter_pre heap chunk) k = none := by
  unfold hfilter_pre
  fin_cases hk
  · rw [aget_adel_ne _ _ _ (by decide), aget_hfilter_assistant_ne _ _ _ _ (by decide),
      aget_adel_ne _ _ _ (by decide), aget_adel_ne _ _ _ (by decide)]
    exact aget_adel_self _ _
  · rw [aget_adel_ne _ _ _ (by decide), aget_hfilter_assistant_ne _ _ _ _ (by decide),
      aget_adel_ne _ _ _ (by decide)]
    exact aget_adel_self _ _
  · rw [aget_adel_ne _ _ _ (by decide), aget_hfilter_assistant_ne _ _ _ _ (by decide)]
    exact aget_adel_self _ _
  · exact aget_adel_self _ _

theorem aget_hfilter_pre_classification (heap : Heap) (chunk : HDict) :
    aget (hfilter_pre heap chunk) "classification_results" =
      aget chunk "classification_results" := by
  unfold hfilter_pre
  rw [aget_adel_ne _ _ _ (by decide), aget_hfilter_assistant_ne _ _ _ _ (by decide),
    aget_adel_ne _ _ _ (by decide), aget_adel_ne _ _ _ (by decide),
    aget_adel_ne _ _ _ (by decide)]

/-- C10: `_filter_chunk_for_streaming` is not side-effect-free on its
argument.  When the chunk's `classification_results` references a shared
dict, the filter deletes `raw_predictions`, `plant_context` and
`attention_overlay` from the caller's own dict (the heap cell), not only
from the returned filtered copy; no other heap cell is touched; and the
top-level excluded keys are removed only from the returned copy (the
caller's top-level dict, passed by value here to model `chunk.copy()`, is
never written). -/
theorem C10_filter_mutates_callers_classification_dict (heap : Heap) (chunk : HDict)
    (a : Nat) (classification : HDict)
    (href : aget chunk "classification_results" = some (HVal.ref a))
    (hcell : aget heap a = some classification) :
    aget (filter_chunk_for_streaming_heap heap chunk).2 a =
      some (adel (adel (adel classification "raw_predictions") "plant_context")
        "attention_overlay") ∧
    (∀ c', aget (filter_chunk_for_streaming_heap heap chunk).2 a = some c' →
      aget c' "raw_predictions" = none ∧ aget c' "plant_context" = none ∧
        aget c' "attention_overlay" = none) ∧
    (∀ b, b ≠ a →
      aget (filter_chunk_for_streaming_heap heap chunk).2 b = aget heap b) ∧
    aget (filter_chunk_for_streaming_heap heap chunk).1 "user_image" = none ∧
    aget (filter_chunk_for_streaming_heap heap chunk).1 "image" = none ∧
    aget (filter_chunk_for_streaming_heap heap chunk).1 "attention_overlay" = none ∧
    aget (filter_chunk_for_streaming_heap heap chunk).1 "messages" = none ∧
    aget (filter_chunk_for_streaming_heap heap chunk).1 "last_update_time" = none := by
  have hpre := aget_hfilter_pre_classification heap chunk
  rw [href] at hpre
  simp only [filter_chunk_for_streaming_heap, hpre, hcell]
  refine ⟨aget_aset_self _ _ _, ?_, ?_, ?_, ?_, ?_, ?_, ?_⟩
  · intro c' hc'
    rw [aget_aset_self] at hc'
    cases hc'
    refine ⟨?_, ?_, ?_⟩
    · rw [aget_adel_ne _ _ _ (by decide), aget_adel_ne _ _ _ (by decide)]
      exact aget_adel_self _ _
    · rw [aget_adel_ne _ _ _ (by decide)]
      exact aget_adel_self _ _
    · exact aget_adel_self _ _
  · intro b hb
    exact aget_aset_ne _ _ _ _ hb
  · rw [aget_adel_ne _ _ _ (by decide), aget_aset_ne _ _ _ _ (by decide)]
    exact aget_hfilter_pre_excluded heap chunk _ (by decide)
  · rw [aget_adel_ne _ _ _ (by decide), aget_aset_ne _ _ _ _ (by decide)]
    exact aget_hfilter_pre_excluded heap chunk _ (by decide)
  · rw [aget_adel_ne _ _ _ (by decide), aget_aset_ne _ _ _ _ (by decide)]
    exact aget_hfilter_pre_excluded heap chunk _ (by decide)
  · rw [aget_adel_ne _ _ _ (by decide), aget_aset_ne _ _ _ _ (by decide)]
    exact aget_hfilter_pre_excluded heap chunk _ (by decide)
  · exact aget_adel_self _ _

/-- Witness for C10 at a concrete chunk sharing its classification dict
with the caller through heap cell 0. -/
theorem C10_witness :
    aget (filter_chunk_for_streaming_heap
        [(0, [("attention_overlay", HVal.prim (Val.str "OV")),
          ("raw_predictions", HVal.prim (Val.str "p")),
          ("disease_name", HVal.prim (Val.str "rust"))])]
        [("classification_results", HVal.ref 0),
          ("user_image", HVal.prim (Val.str "IMG"))]).2 0 =
      some (adel (adel (adel
        [("attention_overlay", HVal.prim (Val.str "OV")),
          ("raw_predictions", HVal.prim (Val.str "p")),
          ("disease_name", HVal.prim (Val.str "rust"))]
        "raw_predictions") "plant_context") "attention_overlay") ∧
    aget (filter_chunk_for_streaming_heap
        [(0, [("attention_overlay", HVal.prim (Val.str "OV")),
          ("raw_predictions", HVal.prim (Val.str "p")),
          ("disease_name", HVal.prim (Val.str "rust"))])]
        [("classification_results", HVal.ref 0),
          ("user_image", HVal.prim (Val.str "IMG"))]).1 "user_image" = none :=
  ⟨(C10_filter_mutates_callers_classification_dict
      [(0, [("attention_overlay", HVal.prim (Val.str "OV")),
        ("raw_predictions", HVal.prim (Val.str "p")),
        ("disease_name", HVal.prim (Val.str "rust"))])]
      [("classification_results", HVal.ref 0),
        ("user_image", HVal.prim (Val.str "IMG"))] 0
      [("attention_overlay", HVal.prim (Val.str "OV")),
        ("raw_predictions", HVal.prim (Val.str "p")),
        ("disease_name", HVal.prim (Val.str "rust"))]
      (by decide) (by decide)).1,
   (C10_filter_mutates_callers_classification_dict
      [(0, [("attention_overlay", HVal.prim (Val.str "OV")),
        ("raw_predictions", HVal.prim (Val.str "p")),
        ("disease_name", HVal.prim (Val.str "rust"))])]
      [("classification_results", HVal.ref 0),
        ("user_image", HVal.prim (Val.str "IMG"))] 0
      [("attention_overlay", HVal.prim (Val.str "OV")),
        ("raw_predictions", HVal.prim (Val.str "p")),
        ("disease_name", HVal.prim (Val.str "rust"))]
      (by decide) (by decide)).2.2.2.1⟩
